import Mathlib

/-!
The nghttp2 helper routines of `lib/nghttp2_helper.c`.

A shallow embedding of the flow-control window ledger, the window-update
threshold, the header-field validators, the growable buffer, the big-endian
byte codec and the case folding of `lib/nghttp2_helper.c`, together with the
properties proved about them.

Conventions of the embedding:

* an `int32_t` is an `Int`; the predicate `isInt32` says that it lies in
  `[-2^31, 2^31 - 1]`.  Every `int32_t` arithmetic expression of the source is
  computed exactly and then reduced by `wrap32` (two's complement);
* the four `int32_t *` arguments of `nghttp2_adjust_local_window_size` are the
  four fields of a `Ledger`; a call maps the ledger before to the ledger after;
* next to the returned code and the final ledger, the embedding records the
  exact (unreduced) value of every `int32_t` arithmetic expression that the
  call evaluated, in evaluation order, so that "no computation overflows" is a
  statement about the call itself;
* a `uint8_t` buffer with its length is a `List Byte`, `Byte = Fin 256`;
* a `size_t` is a `Nat` below `SIZE_MOD = 2^64` and `size_t` arithmetic is
  reduced modulo `SIZE_MOD`; a pointer is its address, `NULL` is 0, and the
  allocator `realloc` is an argument of `nghttp2_reserve_buffer`, whose
  outcome lists the calls made to it;
* the byte order of the host is the argument `le` (little-endian when true) of
  the codec functions: `htons`, `htonl`, `ntohs`, `ntohl` exchange bytes on a
  little-endian host only, and `memcpy` moves the bytes of the host
  representation.
-/

namespace Nghttp2

/-! ## Machine integers -/

/-- The smallest `int32_t`. -/
def INT32_MIN : Int := -2147483648

/-- The largest `int32_t`. -/
def INT32_MAX : Int := 2147483647

/-- Membership in the range of `int32_t`. -/
def isInt32 (x : Int) : Prop := INT32_MIN ≤ x ∧ x ≤ INT32_MAX

instance (x : Int) : Decidable (isInt32 x) := by
  unfold isInt32; exact inferInstance

/-- Two's complement reduction of an exact integer to `int32_t`. -/
def wrap32 (x : Int) : Int := (x + 2147483648) % 4294967296 - 2147483648

/-! ## Parts of the headers that the file uses -/

/-- Modelled from the spec: the macro `NGHTTP2_MAX_WINDOW_SIZE` of `nghttp2.h`
(not part of the sources at hand), "the protocol's maximum window size of
2^31 - 1". -/
def NGHTTP2_MAX_WINDOW_SIZE : Int := 2147483647

/-- Modelled from the spec: the error code `NGHTTP2_ERR_FLOW_CONTROL` of
`nghttp2.h` (not part of the sources at hand), one of "the defined negative
error codes"; the value is the one the library publishes. -/
def NGHTTP2_ERR_FLOW_CONTROL : Int := -524

/-- Modelled from the spec: the macro `nghttp2_max(A, B)` of `nghttp2_helper.h`
(not part of the sources at hand), `((A) > (B) ? (A) : (B))`; the spec writes
`max(0, recv_window_size)`. -/
def nghttp2_max (a b : Int) : Int := if a > b then a else b

/-- Modelled from the spec: the macro `nghttp2_min(A, B)` of `nghttp2_helper.h`
(not part of the sources at hand), `((A) < (B) ? (A) : (B))`; the spec writes
`min(recv_reduction, -candidate)`. -/
def nghttp2_min (a b : Int) : Int := if a < b then a else b

/-! ## The flow-control window ledger -/

/-- The four `int32_t` cells that `nghttp2_adjust_local_window_size` reads and
writes through its pointer arguments. -/
structure Ledger where
  local_window_size : Int
  recv_window_size : Int
  recv_reduction : Int
  delta : Int
  deriving DecidableEq, Repr

/-- All four cells hold `int32_t` values. -/
def Ledger.wf (s : Ledger) : Prop :=
  isInt32 s.local_window_size ∧ isInt32 s.recv_window_size ∧
    isInt32 s.recv_reduction ∧ isInt32 s.delta

instance (s : Ledger) : Decidable s.wf := by
  unfold Ledger.wf; exact inferInstance

/-- What a call leaves behind: the returned `int`, the ledger after the call,
and the exact values of the `int32_t` arithmetic expressions it evaluated. -/
structure Outcome where
  ret : Int
  st : Ledger
  exact : List Int
  deriving DecidableEq, Repr

/-- No `int32_t` arithmetic expression of the call left the `int32_t` range. -/
def Outcome.noOverflow (o : Outcome) : Prop := ∀ x ∈ o.exact, isInt32 x

instance (o : Outcome) : Decidable o.noOverflow := by
  unfold Outcome.noOverflow; exact inferInstance

/-- The function `nghttp2_adjust_local_window_size` (lines 95-149). -/
def nghttp2_adjust_local_window_size (s : Ledger) : Outcome :=
  if s.delta > 0 then
    -- new_recv_window_size = nghttp2_max(0, *recv_window_size_ptr) - *delta_ptr
    let x1 := nghttp2_max 0 s.recv_window_size - s.delta
    let new_recv_window_size := wrap32 x1
    if new_recv_window_size < 0 then
      -- NGHTTP2_MAX_WINDOW_SIZE + new_recv_window_size
      let x2 := NGHTTP2_MAX_WINDOW_SIZE + new_recv_window_size
      if s.local_window_size > wrap32 x2 then
        ⟨NGHTTP2_ERR_FLOW_CONTROL, s, [x1, x2]⟩
      else
        -- *local_window_size_ptr -= new_recv_window_size
        let x3 := s.local_window_size - new_recv_window_size
        let local_window_size := wrap32 x3
        -- -new_recv_window_size
        let x4 := -new_recv_window_size
        let recv_reduction_diff := nghttp2_min s.recv_reduction (wrap32 x4)
        -- *recv_reduction_ptr -= recv_reduction_diff
        let x5 := s.recv_reduction - recv_reduction_diff
        let recv_reduction := wrap32 x5
        -- *delta_ptr -= recv_reduction_diff
        let x7 := s.delta - recv_reduction_diff
        let delta := wrap32 x7
        if s.recv_window_size < 0 then
          -- *recv_window_size_ptr += recv_reduction_diff
          let x6 := s.recv_window_size + recv_reduction_diff
          ⟨0, ⟨local_window_size, wrap32 x6, recv_reduction, delta⟩,
            [x1, x2, x3, x4, x5, x6, x7]⟩
        else
          -- *recv_window_size_ptr = recv_reduction_diff
          ⟨0, ⟨local_window_size, recv_reduction_diff, recv_reduction, delta⟩,
            [x1, x2, x3, x4, x5, x7]⟩
    else
      ⟨0, { s with recv_window_size := new_recv_window_size }, [x1]⟩
  else
    -- *local_window_size_ptr + *delta_ptr < 0
    let y1 := s.local_window_size + s.delta
    if wrap32 y1 < 0 then
      ⟨NGHTTP2_ERR_FLOW_CONTROL, s, [y1]⟩
    else
      -- *recv_window_size_ptr < INT32_MIN - *delta_ptr
      let y2 := INT32_MIN - s.delta
      if s.recv_window_size < wrap32 y2 then
        ⟨NGHTTP2_ERR_FLOW_CONTROL, s, [y1, y2]⟩
      else
        -- *recv_reduction_ptr > INT32_MAX + *delta_ptr
        let y3 := INT32_MAX + s.delta
        if s.recv_reduction > wrap32 y3 then
          ⟨NGHTTP2_ERR_FLOW_CONTROL, s, [y1, y2, y3]⟩
        else
          -- the three updates, then *delta_ptr = 0
          let y4 := s.local_window_size + s.delta
          let y5 := s.recv_window_size + s.delta
          let y6 := s.recv_reduction - s.delta
          ⟨0, ⟨wrap32 y4, wrap32 y5, wrap32 y6, 0⟩, [y1, y2, y3, y4, y5, y6]⟩

/-- The function `nghttp2_should_send_window_update` (lines 151-155).  The
division of two `int` values truncates toward zero (`Int.tdiv`); the comparison
yields the `int` 1 or 0. -/
def nghttp2_should_send_window_update (local_window_size recv_window_size : Int) : Int :=
  if recv_window_size ≥ Int.tdiv local_window_size 2 then 1 else 0

/-! ## The header-field validators -/

/-- A `uint8_t`. -/
abbrev Byte := Fin 256

/-- The table `VALID_HD_NAME_CHARS` (lines 157-188), entry by entry and line by
line as in the source. -/
def VALID_HD_NAME_CHARS : List Int := [
 -1, -1, -1, -1, -1, -1, -1, -1, -1, -1, -1, -1, -1, -1, -1, -1, -1, -1, -1,
 -1, -1, -1, -1, -1, -1, -1, -1, -1, -1, -1, -1, -1, -1,
 1,
 -1,
 1, 1, 1, 1, 1,
 -1, -1,
 1, 1,
 -1,
 1, 1,
 -1,
 1, 1, 1, 1, 1, 1,
 1, 1, 1, 1,
 -1, -1, -1, -1, -1, -1, -1, -1, -1, -1, -1, -1, -1, -1, -1, -1, -1, -1, -1,
 -1, -1, -1, -1, -1, -1, -1, -1, -1, -1, -1, -1, -1, -1, -1, -1, -1,
 1, 1, 1, 1, 1, 1, 1,
 1, 1, 1, 1, 1, 1, 1,
 1, 1, 1, 1, 1, 1, 1,
 1, 1, 1, 1, 1, 1, 1,
 1,
 -1,
 1,
 -1,
 1,
 -1, -1, -1, -1, -1, -1, -1, -1, -1, -1, -1, -1, -1, -1, -1, -1, -1, -1, -1,
 -1, -1, -1, -1, -1, -1, -1, -1, -1, -1, -1, -1, -1, -1, -1, -1, -1, -1, -1,
 -1, -1, -1, -1, -1, -1, -1, -1, -1, -1, -1, -1, -1, -1, -1, -1, -1, -1, -1,
 -1, -1, -1, -1, -1, -1, -1, -1, -1, -1, -1, -1, -1, -1, -1, -1, -1, -1, -1,
 -1, -1, -1, -1, -1, -1, -1, -1, -1, -1, -1, -1, -1, -1, -1, -1, -1, -1, -1,
 -1, -1, -1, -1, -1, -1, -1, -1, -1, -1, -1, -1, -1, -1, -1, -1, -1, -1, -1,
 -1, -1, -1, -1, -1, -1, -1, -1, -1, -1, -1, -1, -1, -1, -1
]

/-- The loop of `check_header_name` (lines 203-209) over the bytes from `name`
up to `last`: a byte in `A`..`Z` is skipped when `nocase` is nonzero, a byte
whose table entry is -1 returns 0, and reaching `last` returns 1. -/
def check_header_name_loop (nocase : Int) : List Byte → Int
  | [] => 1
  | c :: rest =>
    if nocase ≠ 0 ∧ 65 ≤ c.val ∧ c.val ≤ 90 then check_header_name_loop nocase rest
    else if VALID_HD_NAME_CHARS.getD c.val 0 = -1 then 0
    else check_header_name_loop nocase rest

/-- The function `check_header_name` (lines 190-210); the buffer `name` of
length `len` is the list `name`, and 58 is the character `:`. -/
def check_header_name (name : List Byte) (nocase : Int) : Int :=
  match name with
  | [] => 0
  | c :: rest =>
    if c.val = 58 then
      if (c :: rest).length = 1 then 0
      else check_header_name_loop nocase rest
    else check_header_name_loop nocase (c :: rest)

/-- The function `nghttp2_check_header_name` (lines 212-215). -/
def nghttp2_check_header_name (name : List Byte) : Int :=
  check_header_name name 0

/-- The function `nghttp2_check_header_name_nocase` (lines 217-220). -/
def nghttp2_check_header_name_nocase (name : List Byte) : Int :=
  check_header_name name 1

/-- The function `nghttp2_check_header_value` (lines 222-233): the loop over
`value[0]`, ..., `value[len - 1]`. -/
def nghttp2_check_header_value : List Byte → Int
  | [] => 1
  | c :: rest =>
    if c.val ≠ 0 ∧ (0x20 > c.val ∨ c.val > 0x7e) then 0
    else nghttp2_check_header_value rest

/-! ## Vocabulary of the specification -/

/-- Specification side: the token characters that the specification lists for a
header name, the punctuation of `!#$%&'*+-.^_` with backquote, `|` and `~`, the
digits and the lowercase letters. -/
def specTokenChar (c : Byte) : Prop :=
  c.val ∈ [33, 35, 36, 37, 38, 39, 42, 43, 45, 46, 94, 95, 96, 124, 126] ∨
    (48 ≤ c.val ∧ c.val ≤ 57) ∨ (97 ≤ c.val ∧ c.val ≤ 122)

instance (c : Byte) : Decidable (specTokenChar c) := by
  unfold specTokenChar; exact inferInstance

/-- Specification side: an uppercase ASCII letter. -/
def specUpper (c : Byte) : Prop := 65 ≤ c.val ∧ c.val ≤ 90

instance (c : Byte) : Decidable (specUpper c) := by
  unfold specUpper; exact inferInstance

/-- Specification side: the name with one leading `:` removed when there is
one. -/
def specStripColon : List Byte → List Byte
  | [] => []
  | c :: rest => if c.val = 58 then rest else c :: rest

/-- Specification side: a byte that a header value may hold, NUL or
0x20..0x7E. -/
def specValueByte (c : Byte) : Prop := c.val = 0 ∨ (0x20 ≤ c.val ∧ c.val ≤ 0x7e)

instance (c : Byte) : Decidable (specValueByte c) := by
  unfold specValueByte; exact inferInstance

/-! ## The growable buffer -/

/-- The number of values of `size_t`, taken to be 64 bits wide; `size_t`
arithmetic is reduced modulo this number. -/
def SIZE_MOD : Nat := 18446744073709551616

/-- The largest `size_t`. -/
def SIZE_MAX : Nat := 18446744073709551615

/-- Modelled from the spec: the error code `NGHTTP2_ERR_NOMEM` of `nghttp2.h`
(not part of the sources at hand), the "OutOfMemory" condition, one of "the
defined negative error codes"; the value is the one the library publishes. -/
def NGHTTP2_ERR_NOMEM : Int := -901

/-- What a call of `nghttp2_reserve_buffer` leaves behind: the returned `int`,
the cells `*buf_ptr` and `*buflen_ptr` (a pointer is its address, `NULL` is 0),
and the calls of `realloc` it made, each with its two arguments. -/
structure ReserveOutcome where
  ret : Int
  buf_ptr : Nat
  buflen : Nat
  realloc_calls : List (Nat × Nat)
  deriving DecidableEq, Repr

/-- The function `nghttp2_reserve_buffer` (lines 58-73).  The allocator is the
argument `realloc`, which maps the old pointer and the requested size to the
new pointer, `NULL` (0) when it fails. -/
def nghttp2_reserve_buffer (realloc : Nat → Nat → Nat) (buf_ptr buflen min_length : Nat) :
    ReserveOutcome :=
  if min_length > buflen then
    -- min_length = (min_length+4095)/4096*4096
    let min_length1 := ((min_length + 4095) % SIZE_MOD) / 4096 * 4096 % SIZE_MOD
    let temp := realloc buf_ptr min_length1
    if temp = 0 then
      ⟨NGHTTP2_ERR_NOMEM, buf_ptr, buflen, [(buf_ptr, min_length1)]⟩
    else
      ⟨0, temp, min_length1, [(buf_ptr, min_length1)]⟩
  else
    ⟨0, buf_ptr, buflen, []⟩

/-! ## The byte codec -/

/-- The byte with value `x mod 256`. -/
def toByte (x : Nat) : Byte := ⟨x % 256, Nat.mod_lt x (by decide)⟩

/-- The C library function `htons` (the header that declares it is not part of
the sources at hand): host to network byte order of a `uint16_t`.  The
argument `le` says that the host is little-endian; then the two bytes are
swapped, and on a big-endian host the value is returned as it is. -/
def htons (le : Bool) (n : Nat) : Nat :=
  if le then (n % 256) * 256 + (n / 256) % 256 else n

/-- The C library function `ntohs`, network to host byte order of a
`uint16_t`; the same exchange as `htons`. -/
def ntohs (le : Bool) (n : Nat) : Nat :=
  if le then (n % 256) * 256 + (n / 256) % 256 else n

/-- The C library function `htonl`: host to network byte order of a
`uint32_t`; on a little-endian host the four bytes are reversed. -/
def htonl (le : Bool) (n : Nat) : Nat :=
  if le then
    (n % 256) * 16777216 + ((n / 256) % 256) * 65536 + ((n / 65536) % 256) * 256
      + (n / 16777216) % 256
  else n

/-- The C library function `ntohl`, network to host byte order of a
`uint32_t`; the same exchange as `htonl`. -/
def ntohl (le : Bool) (n : Nat) : Nat :=
  if le then
    (n % 256) * 16777216 + ((n / 256) % 256) * 65536 + ((n / 65536) % 256) * 256
      + (n / 16777216) % 256
  else n

/-- The bytes of a `uint16_t` object in the memory of the host, lowest address
first. -/
def bytes_of_uint16 (le : Bool) (x : Nat) : List Byte :=
  if le then [toByte x, toByte (x / 256)] else [toByte (x / 256), toByte x]

/-- The bytes of a `uint32_t` object in the memory of the host, lowest address
first. -/
def bytes_of_uint32 (le : Bool) (x : Nat) : List Byte :=
  if le then [toByte x, toByte (x / 256), toByte (x / 65536), toByte (x / 16777216)]
  else [toByte (x / 16777216), toByte (x / 65536), toByte (x / 256), toByte x]

/-- The `uint16_t` whose object in the memory of the host starts with the given
bytes. -/
def uint16_of_bytes (le : Bool) (b : List Byte) : Nat :=
  if le then (b.getD 0 0).val + 256 * (b.getD 1 0).val
  else 256 * (b.getD 0 0).val + (b.getD 1 0).val

/-- The `uint32_t` whose object in the memory of the host starts with the given
bytes. -/
def uint32_of_bytes (le : Bool) (b : List Byte) : Nat :=
  if le then
    (b.getD 0 0).val + 256 * (b.getD 1 0).val + 65536 * (b.getD 2 0).val
      + 16777216 * (b.getD 3 0).val
  else
    16777216 * (b.getD 0 0).val + 65536 * (b.getD 1 0).val + 256 * (b.getD 2 0).val
      + (b.getD 3 0).val

/-- The C library function `memcpy(dst, src, n)` on byte sequences: the first
`n` bytes of `dst` are replaced by the first `n` bytes of `src`. -/
def memcpy (dst src : List Byte) (n : Nat) : List Byte :=
  src.take n ++ dst.drop n

/-- The function `nghttp2_put_uint16be` (lines 32-36); the result is the buffer
`buf` after the call. -/
def nghttp2_put_uint16be (le : Bool) (buf : List Byte) (n : Nat) : List Byte :=
  let x := htons le n
  memcpy buf (bytes_of_uint16 le x) 2

/-- The function `nghttp2_put_uint32be` (lines 38-42); the result is the buffer
`buf` after the call. -/
def nghttp2_put_uint32be (le : Bool) (buf : List Byte) (n : Nat) : List Byte :=
  let x := htonl le n
  memcpy buf (bytes_of_uint32 le x) 4

/-- The function `nghttp2_get_uint16` (lines 44-49). -/
def nghttp2_get_uint16 (le : Bool) (data : List Byte) : Nat :=
  let n := uint16_of_bytes le (memcpy [0, 0] data 2)
  ntohs le n

/-- The function `nghttp2_get_uint32` (lines 51-56). -/
def nghttp2_get_uint32 (le : Bool) (data : List Byte) : Nat :=
  let n := uint32_of_bytes le (memcpy [0, 0, 0, 0] data 4)
  ntohl le n

/-! ## Case folding -/

/-- The function `nghttp2_downcase` (lines 85-93) on the `len` bytes of `s`:
a byte in `A`..`Z` (65..90) has `a - A` (97 - 65) added to it in `uint8_t`
arithmetic, every other byte is left as it is. -/
def nghttp2_downcase : List Byte → List Byte
  | [] => []
  | c :: rest =>
    (if 65 ≤ c.val ∧ c.val ≤ 90 then toByte (c.val + (97 - 65)) else c)
      :: nghttp2_downcase rest

/-! ## Basic facts about the machine integers -/

theorem wrap32_of_isInt32 {x : Int} (h : isInt32 x) : wrap32 x = x := by
  unfold isInt32 INT32_MIN INT32_MAX at h
  unfold wrap32
  omega

theorem isInt32_wrap32 (x : Int) : isInt32 (wrap32 x) := by
  unfold isInt32 INT32_MIN INT32_MAX wrap32
  omega

/-! ## The shrink branch, for reuse -/

theorem adjust_shrink_eq (s : Ledger) (hwf : s.wf)
    (h0 : 0 ≤ s.local_window_size) (hd : s.delta ≤ 0) :
    ((s.local_window_size + s.delta < 0 ∨ s.recv_window_size + s.delta < INT32_MIN ∨
        s.recv_reduction - s.delta > INT32_MAX) →
      (nghttp2_adjust_local_window_size s).ret = NGHTTP2_ERR_FLOW_CONTROL) ∧
    (¬ (s.local_window_size + s.delta < 0 ∨ s.recv_window_size + s.delta < INT32_MIN ∨
        s.recv_reduction - s.delta > INT32_MAX) →
      (nghttp2_adjust_local_window_size s).ret = 0 ∧
      (nghttp2_adjust_local_window_size s).st.local_window_size
        = s.local_window_size + s.delta ∧
      (nghttp2_adjust_local_window_size s).st.recv_window_size
        = s.recv_window_size + s.delta ∧
      (nghttp2_adjust_local_window_size s).st.recv_reduction
        = s.recv_reduction - s.delta ∧
      (nghttp2_adjust_local_window_size s).st.delta = 0) := by
  obtain ⟨lws, rws, rr, d⟩ := s
  simp only [Ledger.wf, isInt32, INT32_MIN, INT32_MAX] at hwf
  simp only at hd h0
  unfold nghttp2_adjust_local_window_size
  simp only [wrap32, NGHTTP2_ERR_FLOW_CONTROL, INT32_MIN, INT32_MAX]
  split_ifs <;> dsimp only <;>
    refine ⟨fun h => ?_, fun h => ⟨?_, ?_, ?_, ?_, ?_⟩⟩ <;> omega

/-! ## The validators: helper facts -/

set_option maxRecDepth 100000 in
theorem table_entry_iff (c : Byte) :
    VALID_HD_NAME_CHARS.getD c.val 0 = -1 ↔ ¬ specTokenChar c := by
  revert c
  decide

theorem check_header_name_loop_zero_or_one (nocase : Int) (l : List Byte) :
    check_header_name_loop nocase l = 1 ∨ check_header_name_loop nocase l = 0 := by
  induction l with
  | nil => left; rfl
  | cons c rest ih =>
    unfold check_header_name_loop
    split_ifs
    · exact ih
    · right; rfl
    · exact ih

theorem check_header_name_loop_eq_one (nocase : Int) (l : List Byte) :
    check_header_name_loop nocase l = 1 ↔
      ∀ c ∈ l, specTokenChar c ∨ (nocase ≠ 0 ∧ specUpper c) := by
  induction l with
  | nil => simp [check_header_name_loop]
  | cons c rest ih =>
    unfold check_header_name_loop
    simp only [List.mem_cons, forall_eq_or_imp]
    split_ifs with h1 h2
    · rw [ih]
      exact ⟨fun h => ⟨Or.inr ⟨h1.1, h1.2⟩, h⟩, fun h => h.2⟩
    · have hc : ¬ specTokenChar c := (table_entry_iff c).1 h2
      constructor
      · intro h; omega
      · rintro ⟨hh | hh, -⟩
        · exact absurd hh hc
        · exact absurd ⟨hh.1, hh.2⟩ h1
    · have hc : specTokenChar c := by
        by_contra hn
        exact h2 ((table_entry_iff c).2 hn)
      rw [ih]
      exact ⟨fun h => ⟨Or.inl hc, h⟩, fun h => h.2⟩

theorem check_header_name_zero_or_one (name : List Byte) (nocase : Int) :
    check_header_name name nocase = 1 ∨ check_header_name name nocase = 0 := by
  unfold check_header_name
  split
  · right; rfl
  · split_ifs
    · right; rfl
    · exact check_header_name_loop_zero_or_one _ _
    · exact check_header_name_loop_zero_or_one _ _

theorem check_header_name_eq_one (name : List Byte) (nocase : Int) :
    check_header_name name nocase = 1 ↔
      name ≠ [] ∧ specStripColon name ≠ [] ∧
        ∀ c ∈ specStripColon name, specTokenChar c ∨ (nocase ≠ 0 ∧ specUpper c) := by
  cases name with
  | nil => simp [check_header_name]
  | cons c rest =>
    unfold check_header_name
    simp only [specStripColon, List.length_cons]
    split_ifs with h1 h2
    · have : rest = [] := by
        cases rest with
        | nil => rfl
        | cons a b => simp at h2
      subst this
      simp
    · rw [check_header_name_loop_eq_one]
      have : rest ≠ [] := by
        rintro rfl
        simp at h2
      simp [this]
    · rw [check_header_name_loop_eq_one]
      simp

theorem check_header_value_zero_or_one (value : List Byte) :
    nghttp2_check_header_value value = 1 ∨ nghttp2_check_header_value value = 0 := by
  induction value with
  | nil => left; rfl
  | cons c rest ih =>
    unfold nghttp2_check_header_value
    split_ifs
    · right; rfl
    · exact ih

theorem check_header_value_eq_one (value : List Byte) :
    nghttp2_check_header_value value = 1 ↔ ∀ c ∈ value, specValueByte c := by
  induction value with
  | nil => simp [nghttp2_check_header_value]
  | cons c rest ih =>
    unfold nghttp2_check_header_value
    simp only [List.mem_cons, forall_eq_or_imp, specValueByte]
    split_ifs with h
    · constructor
      · intro h0; omega
      · rintro ⟨hc, -⟩; omega
    · rw [ih]
      constructor
      · intro hr
        exact ⟨by omega, hr⟩
      · exact fun hr => hr.2

theorem tdiv_two_nonneg (l : Int) (h : 0 ≤ l) : Int.tdiv l 2 = l / 2 :=
  Int.tdiv_eq_ediv h (by decide)

theorem tdiv_two_neg (l : Int) (h : l < 0) : Int.tdiv l 2 = -((-l) / 2) := by
  have h1 : Int.tdiv (-(-l)) 2 = -(Int.tdiv (-l) 2) := Int.neg_tdiv (-l) 2
  rw [neg_neg] at h1
  rw [h1, Int.tdiv_eq_ediv (by omega) (by decide)]

/-! ## The ledger: failure is atomic -/

/-- Claim C1: whenever `nghttp2_adjust_local_window_size` returns
`NGHTTP2_ERR_FLOW_CONTROL`, the cells `local_window_size`, `recv_window_size`,
`recv_reduction` and `delta` all hold the values they had before the call.
This holds for every ledger and every delta, with no assumption on them. -/
theorem adjust_failure_atomic (s : Ledger)
    (h : (nghttp2_adjust_local_window_size s).ret = NGHTTP2_ERR_FLOW_CONTROL) :
    (nghttp2_adjust_local_window_size s).st.local_window_size = s.local_window_size ∧
    (nghttp2_adjust_local_window_size s).st.recv_window_size = s.recv_window_size ∧
    (nghttp2_adjust_local_window_size s).st.recv_reduction = s.recv_reduction ∧
    (nghttp2_adjust_local_window_size s).st.delta = s.delta := by
  unfold nghttp2_adjust_local_window_size at h ⊢
  simp only [NGHTTP2_ERR_FLOW_CONTROL] at h ⊢
  split_ifs at h ⊢ <;> simp_all

/-- A growth by 1 of a window that is already 2^31 - 1 fails and changes
nothing. -/
theorem adjust_failure_atomic_witness :
    (nghttp2_adjust_local_window_size ⟨2147483647, 0, 0, 1⟩).ret = NGHTTP2_ERR_FLOW_CONTROL ∧
    ((nghttp2_adjust_local_window_size ⟨2147483647, 0, 0, 1⟩).st.local_window_size
        = (⟨2147483647, 0, 0, 1⟩ : Ledger).local_window_size ∧
      (nghttp2_adjust_local_window_size ⟨2147483647, 0, 0, 1⟩).st.recv_window_size
        = (⟨2147483647, 0, 0, 1⟩ : Ledger).recv_window_size ∧
      (nghttp2_adjust_local_window_size ⟨2147483647, 0, 0, 1⟩).st.recv_reduction
        = (⟨2147483647, 0, 0, 1⟩ : Ledger).recv_reduction ∧
      (nghttp2_adjust_local_window_size ⟨2147483647, 0, 0, 1⟩).st.delta
        = (⟨2147483647, 0, 0, 1⟩ : Ledger).delta) :=
  ⟨by decide, adjust_failure_atomic ⟨2147483647, 0, 0, 1⟩ (by decide)⟩

/-! ## The ledger: the invariant -/

/-- Claim C2: from a ledger of `int32_t` cells with
`0 ≤ local_window_size ≤ 2^31 - 1` and `recv_reduction ≥ 0`, and for every
`int32_t` delta, a successful call of `nghttp2_adjust_local_window_size` ends
with `0 ≤ local_window_size ≤ 2^31 - 1` and `recv_reduction ≥ 0`, and none of
the `int32_t` computations of the call overflows. -/
theorem adjust_preserves_invariant (s : Ledger) (hwf : s.wf)
    (h0 : 0 ≤ s.local_window_size) (hr : 0 ≤ s.recv_reduction)
    (hret : (nghttp2_adjust_local_window_size s).ret = 0) :
    0 ≤ (nghttp2_adjust_local_window_size s).st.local_window_size ∧
    (nghttp2_adjust_local_window_size s).st.local_window_size ≤ 2147483647 ∧
    0 ≤ (nghttp2_adjust_local_window_size s).st.recv_reduction ∧
    (nghttp2_adjust_local_window_size s).noOverflow := by
  obtain ⟨lws, rws, rr, d⟩ := s
  simp only [Ledger.wf, isInt32, INT32_MIN, INT32_MAX] at hwf
  simp only at h0 hr
  unfold nghttp2_adjust_local_window_size at hret ⊢
  simp only [Outcome.noOverflow, nghttp2_max, nghttp2_min, wrap32, NGHTTP2_MAX_WINDOW_SIZE,
    NGHTTP2_ERR_FLOW_CONTROL, INT32_MIN, INT32_MAX, isInt32] at hret ⊢
  split_ifs at hret ⊢ <;>
    simp only [List.mem_cons, List.mem_singleton, List.not_mem_nil, or_false, forall_eq_or_imp,
      forall_eq] at hret ⊢ <;>
    omega

/-- A growth by 30 on a ledger with an overdraft of 10 and a pending reduction
of 20. -/
theorem adjust_preserves_invariant_witness :
    (⟨100, -10, 20, 30⟩ : Ledger).wf ∧
    0 ≤ (⟨100, -10, 20, 30⟩ : Ledger).local_window_size ∧
    0 ≤ (⟨100, -10, 20, 30⟩ : Ledger).recv_reduction ∧
    (nghttp2_adjust_local_window_size ⟨100, -10, 20, 30⟩).ret = 0 ∧
    (0 ≤ (nghttp2_adjust_local_window_size ⟨100, -10, 20, 30⟩).st.local_window_size ∧
      (nghttp2_adjust_local_window_size ⟨100, -10, 20, 30⟩).st.local_window_size ≤ 2147483647 ∧
      0 ≤ (nghttp2_adjust_local_window_size ⟨100, -10, 20, 30⟩).st.recv_reduction ∧
      (nghttp2_adjust_local_window_size ⟨100, -10, 20, 30⟩).noOverflow) :=
  ⟨by decide, by decide, by decide, by decide,
    adjust_preserves_invariant ⟨100, -10, 20, 30⟩ (by decide) (by decide) (by decide)
      (by decide)⟩

/-! ## The ledger: growth requests -/

/-- Claim C3: for every ledger of `int32_t` cells and every delta > 0,
`nghttp2_adjust_local_window_size` returns `NGHTTP2_ERR_FLOW_CONTROL` exactly
when `local_window_size + delta - max(0, recv_window_size)`, computed in exact
integers, exceeds 2^31 - 1, and returns 0 in every other case. -/
theorem adjust_growth_fails_iff (s : Ledger) (hwf : s.wf) (hd : 0 < s.delta) :
    ((nghttp2_adjust_local_window_size s).ret = NGHTTP2_ERR_FLOW_CONTROL ↔
      s.local_window_size + s.delta - max 0 s.recv_window_size > 2147483647) ∧
    (¬ (s.local_window_size + s.delta - max 0 s.recv_window_size > 2147483647) →
      (nghttp2_adjust_local_window_size s).ret = 0) := by
  obtain ⟨lws, rws, rr, d⟩ := s
  simp only [Ledger.wf, isInt32, INT32_MIN, INT32_MAX] at hwf
  simp only at hd
  unfold nghttp2_adjust_local_window_size
  simp only [nghttp2_max, nghttp2_min, wrap32, NGHTTP2_MAX_WINDOW_SIZE,
    NGHTTP2_ERR_FLOW_CONTROL, max_def]
  split_ifs <;> dsimp only <;> refine ⟨⟨fun h => ?_, fun h => ?_⟩, fun h => ?_⟩ <;>
    first | omega | exact h.elim

/-- The growth of 2^31 - 1 by 1 fails; the exact post-growth window is 2^31. -/
theorem adjust_growth_fails_iff_witness :
    (⟨2147483647, 0, 0, 1⟩ : Ledger).wf ∧ 0 < (⟨2147483647, 0, 0, 1⟩ : Ledger).delta ∧
    (((nghttp2_adjust_local_window_size ⟨2147483647, 0, 0, 1⟩).ret = NGHTTP2_ERR_FLOW_CONTROL ↔
        (⟨2147483647, 0, 0, 1⟩ : Ledger).local_window_size
          + (⟨2147483647, 0, 0, 1⟩ : Ledger).delta
          - max 0 (⟨2147483647, 0, 0, 1⟩ : Ledger).recv_window_size > 2147483647) ∧
      (¬ ((⟨2147483647, 0, 0, 1⟩ : Ledger).local_window_size
          + (⟨2147483647, 0, 0, 1⟩ : Ledger).delta
          - max 0 (⟨2147483647, 0, 0, 1⟩ : Ledger).recv_window_size > 2147483647) →
        (nghttp2_adjust_local_window_size ⟨2147483647, 0, 0, 1⟩).ret = 0)) :=
  ⟨by decide, by decide, adjust_growth_fails_iff ⟨2147483647, 0, 0, 1⟩ (by decide) (by decide)⟩

/-- Claim C5: for every ledger of `int32_t` cells with `recv_reduction ≥ 0` and
every delta > 0 on which `nghttp2_adjust_local_window_size` succeeds, with
`c = max(0, recv_window_size) - delta`: if `c ≥ 0` then `recv_window_size`
becomes `c` and the other three cells keep their values; if `c < 0` then, with
`off = min(recv_reduction, -c)`, `local_window_size` becomes
`local_window_size - c`, `recv_reduction` becomes `recv_reduction - off`,
`recv_window_size` becomes `recv_window_size + off` when it was negative and
`off` otherwise, and `delta` becomes `delta - off`. -/
theorem adjust_growth_post (s : Ledger) (hwf : s.wf) (hr : 0 ≤ s.recv_reduction)
    (hd : 0 < s.delta) (hret : (nghttp2_adjust_local_window_size s).ret = 0) :
    (0 ≤ max 0 s.recv_window_size - s.delta →
      (nghttp2_adjust_local_window_size s).st.recv_window_size
          = max 0 s.recv_window_size - s.delta ∧
        (nghttp2_adjust_local_window_size s).st.local_window_size = s.local_window_size ∧
        (nghttp2_adjust_local_window_size s).st.recv_reduction = s.recv_reduction ∧
        (nghttp2_adjust_local_window_size s).st.delta = s.delta) ∧
    (max 0 s.recv_window_size - s.delta < 0 →
      (nghttp2_adjust_local_window_size s).st.local_window_size
          = s.local_window_size - (max 0 s.recv_window_size - s.delta) ∧
        (nghttp2_adjust_local_window_size s).st.recv_reduction
          = s.recv_reduction
            - min s.recv_reduction (-(max 0 s.recv_window_size - s.delta)) ∧
        (s.recv_window_size < 0 →
          (nghttp2_adjust_local_window_size s).st.recv_window_size
            = s.recv_window_size
              + min s.recv_reduction (-(max 0 s.recv_window_size - s.delta))) ∧
        (¬ s.recv_window_size < 0 →
          (nghttp2_adjust_local_window_size s).st.recv_window_size
            = min s.recv_reduction (-(max 0 s.recv_window_size - s.delta))) ∧
        (nghttp2_adjust_local_window_size s).st.delta
          = s.delta - min s.recv_reduction (-(max 0 s.recv_window_size - s.delta))) := by
  obtain ⟨lws, rws, rr, d⟩ := s
  simp only [Ledger.wf, isInt32, INT32_MIN, INT32_MAX] at hwf
  simp only at hd hr
  unfold nghttp2_adjust_local_window_size at hret ⊢
  simp only [nghttp2_max, nghttp2_min, wrap32, NGHTTP2_MAX_WINDOW_SIZE,
    NGHTTP2_ERR_FLOW_CONTROL, max_def, min_def] at hret ⊢
  split_ifs at hret ⊢ <;> dsimp only at hret ⊢ <;>
    refine ⟨fun h => ⟨?_, ?_, ?_, ?_⟩, fun h => ⟨?_, ?_, fun h1 => ?_, fun h1 => ?_, ?_⟩⟩ <;>
    omega

/-- A growth by 30 on a ledger with an overdraft of 10 and a pending reduction
of 20: here `c = -30` and `off = 20`. -/
theorem adjust_growth_post_witness :
    (⟨100, -10, 20, 30⟩ : Ledger).wf ∧ (0 : Int) ≤ 20 ∧ (0 : Int) < 30 ∧
    (nghttp2_adjust_local_window_size ⟨100, -10, 20, 30⟩).ret = 0 ∧
    ((0 ≤ max 0 (-10 : Int) - 30 →
        (nghttp2_adjust_local_window_size ⟨100, -10, 20, 30⟩).st.recv_window_size
            = max 0 (-10) - 30 ∧
          (nghttp2_adjust_local_window_size ⟨100, -10, 20, 30⟩).st.local_window_size = 100 ∧
          (nghttp2_adjust_local_window_size ⟨100, -10, 20, 30⟩).st.recv_reduction = 20 ∧
          (nghttp2_adjust_local_window_size ⟨100, -10, 20, 30⟩).st.delta = 30) ∧
      (max 0 (-10 : Int) - 30 < 0 →
        (nghttp2_adjust_local_window_size ⟨100, -10, 20, 30⟩).st.local_window_size
            = 100 - (max 0 (-10) - 30) ∧
          (nghttp2_adjust_local_window_size ⟨100, -10, 20, 30⟩).st.recv_reduction
            = 20 - min 20 (-(max 0 (-10) - 30)) ∧
          ((-10 : Int) < 0 →
            (nghttp2_adjust_local_window_size ⟨100, -10, 20, 30⟩).st.recv_window_size
              = -10 + min 20 (-(max 0 (-10) - 30))) ∧
          (¬ (-10 : Int) < 0 →
            (nghttp2_adjust_local_window_size ⟨100, -10, 20, 30⟩).st.recv_window_size
              = min 20 (-(max 0 (-10) - 30))) ∧
          (nghttp2_adjust_local_window_size ⟨100, -10, 20, 30⟩).st.delta
            = 30 - min 20 (-(max 0 (-10) - 30)))) :=
  ⟨by decide, by decide, by decide, by decide,
    adjust_growth_post ⟨100, -10, 20, 30⟩ (by decide) (by decide) (by decide) (by decide)⟩

/-! ## The ledger: shrink requests -/

/-- Claim C4: for every ledger of `int32_t` cells with `local_window_size ≥ 0`
and every delta ≤ 0, `nghttp2_adjust_local_window_size` fails with
`NGHTTP2_ERR_FLOW_CONTROL` exactly when, in exact integers,
`local_window_size + delta < 0` or `recv_window_size + delta < INT32_MIN` or
`recv_reduction - delta > INT32_MAX`; otherwise it returns 0 with
`local_window_size + delta`, `recv_window_size + delta`,
`recv_reduction - delta` and 0 in the four cells. -/
theorem adjust_shrink_characterised (s : Ledger) (hwf : s.wf)
    (h0 : 0 ≤ s.local_window_size) (hd : s.delta ≤ 0) :
    ((nghttp2_adjust_local_window_size s).ret = NGHTTP2_ERR_FLOW_CONTROL ↔
      (s.local_window_size + s.delta < 0 ∨ s.recv_window_size + s.delta < INT32_MIN ∨
        s.recv_reduction - s.delta > INT32_MAX)) ∧
    (¬ (s.local_window_size + s.delta < 0 ∨ s.recv_window_size + s.delta < INT32_MIN ∨
        s.recv_reduction - s.delta > INT32_MAX) →
      (nghttp2_adjust_local_window_size s).ret = 0 ∧
      (nghttp2_adjust_local_window_size s).st.local_window_size
        = s.local_window_size + s.delta ∧
      (nghttp2_adjust_local_window_size s).st.recv_window_size
        = s.recv_window_size + s.delta ∧
      (nghttp2_adjust_local_window_size s).st.recv_reduction
        = s.recv_reduction - s.delta ∧
      (nghttp2_adjust_local_window_size s).st.delta = 0) := by
  obtain ⟨lws, rws, rr, d⟩ := s
  simp only [Ledger.wf, isInt32, INT32_MIN, INT32_MAX] at hwf
  simp only at hd h0
  unfold nghttp2_adjust_local_window_size
  simp only [wrap32, NGHTTP2_ERR_FLOW_CONTROL, INT32_MIN, INT32_MAX]
  split_ifs <;> dsimp only <;>
    refine ⟨⟨fun h => ?_, fun h => ?_⟩, fun h => ⟨?_, ?_, ?_, ?_, ?_⟩⟩ <;>
    first | omega | exact h.elim

/-- A shrink by 10 of the ledger (100, 50, 0). -/
theorem adjust_shrink_characterised_witness :
    (⟨100, 50, 0, -10⟩ : Ledger).wf ∧ (0 : Int) ≤ 100 ∧ (-10 : Int) ≤ 0 ∧
    (((nghttp2_adjust_local_window_size ⟨100, 50, 0, -10⟩).ret = NGHTTP2_ERR_FLOW_CONTROL ↔
        ((100 : Int) + -10 < 0 ∨ (50 : Int) + -10 < INT32_MIN ∨ (0 : Int) - -10 > INT32_MAX)) ∧
      (¬ ((100 : Int) + -10 < 0 ∨ (50 : Int) + -10 < INT32_MIN ∨
          (0 : Int) - -10 > INT32_MAX) →
        (nghttp2_adjust_local_window_size ⟨100, 50, 0, -10⟩).ret = 0 ∧
        (nghttp2_adjust_local_window_size ⟨100, 50, 0, -10⟩).st.local_window_size
          = 100 + -10 ∧
        (nghttp2_adjust_local_window_size ⟨100, 50, 0, -10⟩).st.recv_window_size
          = 50 + -10 ∧
        (nghttp2_adjust_local_window_size ⟨100, 50, 0, -10⟩).st.recv_reduction = 0 - -10 ∧
        (nghttp2_adjust_local_window_size ⟨100, 50, 0, -10⟩).st.delta = 0)) :=
  ⟨by decide, by decide, by decide,
    adjust_shrink_characterised ⟨100, 50, 0, -10⟩ (by decide) (by decide) (by decide)⟩

/-! ## The ledger: a shrink followed by the same growth -/

/-- Claim C6, refuted as stated: on the ledger (100, 50, 0) the shrink by 10
succeeds and leaves (90, 40, 10); the growth by 10 that follows is absorbed by
the 40 received bytes, so `local_window_size` stays 90 instead of returning to
100 and `delta` stays 10 instead of becoming 0. -/
theorem shrink_then_grow_counterexample :
    (nghttp2_adjust_local_window_size ⟨100, 50, 0, -10⟩).ret = 0 ∧
    (nghttp2_adjust_local_window_size
      { (nghttp2_adjust_local_window_size ⟨100, 50, 0, -10⟩).st with delta := 10 }).ret = 0 ∧
    (nghttp2_adjust_local_window_size
      { (nghttp2_adjust_local_window_size ⟨100, 50, 0, -10⟩).st with delta := 10
        }).st.local_window_size = 90 ∧
    (nghttp2_adjust_local_window_size
      { (nghttp2_adjust_local_window_size ⟨100, 50, 0, -10⟩).st with delta := 10
        }).st.delta = 10 ∧
    ¬ ((nghttp2_adjust_local_window_size
          { (nghttp2_adjust_local_window_size ⟨100, 50, 0, -10⟩).st with delta := 10 }).ret = 0 ∧
        (nghttp2_adjust_local_window_size
          { (nghttp2_adjust_local_window_size ⟨100, 50, 0, -10⟩).st with delta := 10
            }).st.local_window_size = 100 ∧
        (nghttp2_adjust_local_window_size
          { (nghttp2_adjust_local_window_size ⟨100, 50, 0, -10⟩).st with delta := 10
            }).st.delta = 0) := by
  decide

/-- Claim C6, amended: for every ledger of `int32_t` cells with
`local_window_size ≥ 0` and `recv_reduction ≥ 0` and every `k > 0` such that
the call with delta `-k` succeeds, the call with delta `k` that follows
immediately succeeds; when `recv_window_size ≤ k` held before the shrink (in
particular when no received bytes were pending) it leaves `local_window_size`
at its value before the shrink and rewrites delta to 0, and when
`recv_window_size > k` it does neither. -/
theorem shrink_then_grow_restores (l r q k : Int)
    (hl : isInt32 l) (hr : isInt32 r) (hq : isInt32 q) (hk : isInt32 k)
    (hk0 : 0 < k) (hl0 : 0 ≤ l) (hq0 : 0 ≤ q)
    (hshrink : (nghttp2_adjust_local_window_size ⟨l, r, q, -k⟩).ret = 0) :
    (nghttp2_adjust_local_window_size
      { (nghttp2_adjust_local_window_size ⟨l, r, q, -k⟩).st with delta := k }).ret = 0 ∧
    (r ≤ k →
      (nghttp2_adjust_local_window_size
        { (nghttp2_adjust_local_window_size ⟨l, r, q, -k⟩).st with delta := k
          }).st.local_window_size = l ∧
      (nghttp2_adjust_local_window_size
        { (nghttp2_adjust_local_window_size ⟨l, r, q, -k⟩).st with delta := k
          }).st.delta = 0) ∧
    (k < r →
      (nghttp2_adjust_local_window_size
        { (nghttp2_adjust_local_window_size ⟨l, r, q, -k⟩).st with delta := k
          }).st.local_window_size ≠ l ∧
      (nghttp2_adjust_local_window_size
        { (nghttp2_adjust_local_window_size ⟨l, r, q, -k⟩).st with delta := k
          }).st.delta ≠ 0) := by
  have hd : (⟨l, r, q, -k⟩ : Ledger).delta ≤ 0 := by simp only; omega
  have hwf : (⟨l, r, q, -k⟩ : Ledger).wf := by
    simp only [Ledger.wf, isInt32, INT32_MIN, INT32_MAX] at hl hr hq hk ⊢
    omega
  have hguard : ¬ ((⟨l, r, q, -k⟩ : Ledger).local_window_size + (⟨l, r, q, -k⟩ : Ledger).delta < 0
      ∨ (⟨l, r, q, -k⟩ : Ledger).recv_window_size + (⟨l, r, q, -k⟩ : Ledger).delta < INT32_MIN
      ∨ (⟨l, r, q, -k⟩ : Ledger).recv_reduction - (⟨l, r, q, -k⟩ : Ledger).delta > INT32_MAX) := by
    intro hg
    have := (adjust_shrink_eq ⟨l, r, q, -k⟩ hwf hl0 hd).1 hg
    rw [hshrink] at this
    simp [NGHTTP2_ERR_FLOW_CONTROL] at this
  obtain ⟨-, h1, h2, h3, h4⟩ := (adjust_shrink_eq ⟨l, r, q, -k⟩ hwf hl0 hd).2 hguard
  have hst : (nghttp2_adjust_local_window_size ⟨l, r, q, -k⟩).st = ⟨l + -k, r + -k, q - -k, 0⟩ := by
    cases hs : (nghttp2_adjust_local_window_size ⟨l, r, q, -k⟩).st
    rw [hs] at h1 h2 h3 h4
    simp only at h1 h2 h3 h4
    rw [h1, h2, h3, h4]
  rw [hst]
  simp only [INT32_MIN, INT32_MAX, isInt32, not_or, not_lt] at hl hr hq hk hguard
  unfold nghttp2_adjust_local_window_size
  simp only [nghttp2_max, nghttp2_min, wrap32, NGHTTP2_MAX_WINDOW_SIZE,
    NGHTTP2_ERR_FLOW_CONTROL]
  split_ifs <;> dsimp only <;>
    refine ⟨?_, fun h => ⟨?_, ?_⟩, fun h => ⟨?_, ?_⟩⟩ <;> omega

/-- The ledger (100, 0, 0) shrunk by 10 and grown by 10 again. -/
theorem shrink_then_grow_restores_witness :
    isInt32 100 ∧ isInt32 0 ∧ isInt32 0 ∧ isInt32 10 ∧ (0 : Int) < 10 ∧ (0 : Int) ≤ 100 ∧
    (0 : Int) ≤ 0 ∧ (nghttp2_adjust_local_window_size ⟨100, 0, 0, -10⟩).ret = 0 ∧
    ((nghttp2_adjust_local_window_size
        { (nghttp2_adjust_local_window_size ⟨100, 0, 0, -10⟩).st with delta := 10 }).ret = 0 ∧
      ((0 : Int) ≤ 10 →
        (nghttp2_adjust_local_window_size
          { (nghttp2_adjust_local_window_size ⟨100, 0, 0, -10⟩).st with delta := 10
            }).st.local_window_size = 100 ∧
        (nghttp2_adjust_local_window_size
          { (nghttp2_adjust_local_window_size ⟨100, 0, 0, -10⟩).st with delta := 10
            }).st.delta = 0) ∧
      ((10 : Int) < 0 →
        (nghttp2_adjust_local_window_size
          { (nghttp2_adjust_local_window_size ⟨100, 0, 0, -10⟩).st with delta := 10
            }).st.local_window_size ≠ 100 ∧
        (nghttp2_adjust_local_window_size
          { (nghttp2_adjust_local_window_size ⟨100, 0, 0, -10⟩).st with delta := 10
            }).st.delta ≠ 0)) :=
  ⟨by decide, by decide, by decide, by decide, by decide, by decide, by decide, by decide,
    shrink_then_grow_restores 100 0 0 10 (by decide) (by decide) (by decide) (by decide)
      (by decide) (by decide) (by decide) (by decide)⟩

/-! ## The ledger: bounds on the advertised window -/

/-- Claim C7, refuted as stated: on the ledger (-5, 10, 0) the growth by 3
succeeds (it is absorbed by the 10 received bytes) and `local_window_size` is
still -5 afterwards; no computation of the call overflows. -/
theorem adjust_window_bounds_counterexample :
    (⟨-5, 10, 0, 3⟩ : Ledger).wf ∧
    (nghttp2_adjust_local_window_size ⟨-5, 10, 0, 3⟩).ret = 0 ∧
    (nghttp2_adjust_local_window_size ⟨-5, 10, 0, 3⟩).noOverflow ∧
    (nghttp2_adjust_local_window_size ⟨-5, 10, 0, 3⟩).st.local_window_size = -5 ∧
    ¬ (0 ≤ (nghttp2_adjust_local_window_size ⟨-5, 10, 0, 3⟩).st.local_window_size ∧
      (nghttp2_adjust_local_window_size ⟨-5, 10, 0, 3⟩).st.local_window_size ≤ 2147483647) := by
  decide

/-- Claim C7, amended: for every ledger of `int32_t` cells whose
`local_window_size` is not negative before the call, and every `int32_t` delta
for which `nghttp2_adjust_local_window_size` succeeds, the final
`local_window_size` is not negative and does not exceed 2^31 - 1. -/
theorem adjust_window_bounds (s : Ledger) (hwf : s.wf) (h0 : 0 ≤ s.local_window_size)
    (hret : (nghttp2_adjust_local_window_size s).ret = 0) :
    0 ≤ (nghttp2_adjust_local_window_size s).st.local_window_size ∧
    (nghttp2_adjust_local_window_size s).st.local_window_size ≤ NGHTTP2_MAX_WINDOW_SIZE := by
  obtain ⟨lws, rws, rr, d⟩ := s
  simp only [Ledger.wf, isInt32, INT32_MIN, INT32_MAX] at hwf
  simp only at h0
  unfold nghttp2_adjust_local_window_size at hret ⊢
  simp only [nghttp2_max, nghttp2_min, wrap32, NGHTTP2_MAX_WINDOW_SIZE,
    NGHTTP2_ERR_FLOW_CONTROL, INT32_MIN, INT32_MAX] at hret ⊢
  split_ifs at hret ⊢ <;> dsimp only at hret ⊢ <;> omega

/-- A growth by 50 of the ledger (100, 0, 0), which raises the window to 150. -/
theorem adjust_window_bounds_witness :
    (⟨100, 0, 0, 50⟩ : Ledger).wf ∧ (0 : Int) ≤ 100 ∧
    (nghttp2_adjust_local_window_size ⟨100, 0, 0, 50⟩).ret = 0 ∧
    (0 ≤ (nghttp2_adjust_local_window_size ⟨100, 0, 0, 50⟩).st.local_window_size ∧
      (nghttp2_adjust_local_window_size ⟨100, 0, 0, 50⟩).st.local_window_size
        ≤ NGHTTP2_MAX_WINDOW_SIZE) :=
  ⟨by decide, by decide, by decide,
    adjust_window_bounds ⟨100, 0, 0, 50⟩ (by decide) (by decide) (by decide)⟩

/-! ## The validators -/

/-- Claim C8: for every byte string `name`, `nghttp2_check_header_name` returns
1 exactly when `name` is not empty and, once one leading `:` is removed if
there is one, the rest is not empty and consists of token characters (the
listed punctuation, digits, lowercase letters); `nghttp2_check_header_name_nocase`
returns 1 exactly when the same holds with `A`..`Z` allowed as well; both
return 0 in every other case.  On `:path` the strict check gives 1, on `:` it
gives 0, and on `Content-Type` the case-insensitive check gives 1 and the
strict check 0. -/
theorem check_header_name_characterised :
    (∀ name : List Byte,
      (nghttp2_check_header_name name = 1 ↔
        name ≠ [] ∧ specStripColon name ≠ [] ∧
          ∀ c ∈ specStripColon name, specTokenChar c) ∧
      (nghttp2_check_header_name name ≠ 1 → nghttp2_check_header_name name = 0) ∧
      (nghttp2_check_header_name_nocase name = 1 ↔
        name ≠ [] ∧ specStripColon name ≠ [] ∧
          ∀ c ∈ specStripColon name, specTokenChar c ∨ specUpper c) ∧
      (nghttp2_check_header_name_nocase name ≠ 1 →
        nghttp2_check_header_name_nocase name = 0)) ∧
    nghttp2_check_header_name [58, 112, 97, 116, 104] = 1 ∧
    nghttp2_check_header_name [58] = 0 ∧
    nghttp2_check_header_name_nocase
      [67, 111, 110, 116, 101, 110, 116, 45, 84, 121, 112, 101] = 1 ∧
    nghttp2_check_header_name
      [67, 111, 110, 116, 101, 110, 116, 45, 84, 121, 112, 101] = 0 := by
  refine ⟨fun name => ⟨?_, ?_, ?_, ?_⟩, by decide, by decide, by decide, by decide⟩
  · unfold nghttp2_check_header_name
    rw [check_header_name_eq_one]
    simp
  · intro h
    unfold nghttp2_check_header_name at h ⊢
    rcases check_header_name_zero_or_one name 0 with h1 | h1
    · exact absurd h1 h
    · exact h1
  · unfold nghttp2_check_header_name_nocase
    rw [check_header_name_eq_one]
    simp
  · intro h
    unfold nghttp2_check_header_name_nocase at h ⊢
    rcases check_header_name_zero_or_one name 1 with h1 | h1
    · exact absurd h1 h
    · exact h1

/-- Claim C9: for every byte string `value`, the empty one included,
`nghttp2_check_header_value` returns 1 exactly when every byte is 0x00 or lies
in 0x20..0x7E, and returns 0 otherwise; the bytes that reject are exactly
those in 0x01..0x1F, 0x7F and those from 0x80 on.  The value `ok\0value` gives
1, `bad\x7fvalue` gives 0 and the empty value gives 1. -/
theorem check_header_value_characterised :
    (∀ value : List Byte,
      (nghttp2_check_header_value value = 1 ↔ ∀ c ∈ value, specValueByte c) ∧
      (nghttp2_check_header_value value ≠ 1 → nghttp2_check_header_value value = 0)) ∧
    (∀ c : Byte, ¬ specValueByte c ↔
      ((0x01 ≤ c.val ∧ c.val ≤ 0x1F) ∨ c.val = 0x7F ∨ 0x80 ≤ c.val)) ∧
    nghttp2_check_header_value [111, 107, 0, 118, 97, 108, 117, 101] = 1 ∧
    nghttp2_check_header_value [98, 97, 100, 127, 118, 97, 108, 117, 101] = 0 ∧
    nghttp2_check_header_value [] = 1 := by
  refine ⟨fun value => ⟨check_header_value_eq_one value, ?_⟩, ?_, by decide, by decide,
    by decide⟩
  · intro h
    rcases check_header_value_zero_or_one value with h1 | h1
    · exact absurd h1 h
    · exact h1
  · intro c
    unfold specValueByte
    omega

/-! ## The window-update threshold -/

/-- Claim C10: for every pair of `int32_t` values (indeed for every pair of
integers), `nghttp2_should_send_window_update` returns a nonzero value exactly
when `recv_window_size ≥ local_window_size / 2`, the division being the
integer division of C, which truncates toward zero; the value returned is 1 or
0.  For `local_window_size ≥ 0` the condition reads
`local_window_size ≤ 2 * recv_window_size + 1`, and for
`local_window_size < 0` it reads `local_window_size ≤ 2 * recv_window_size`.
The pair (100, 50) gives 1 and the pair (100, 49) gives 0. -/
theorem should_send_window_update_iff :
    (∀ local_window_size recv_window_size : Int,
      (nghttp2_should_send_window_update local_window_size recv_window_size ≠ 0 ↔
        recv_window_size ≥ Int.tdiv local_window_size 2) ∧
      (nghttp2_should_send_window_update local_window_size recv_window_size = 1 ∨
        nghttp2_should_send_window_update local_window_size recv_window_size = 0) ∧
      (0 ≤ local_window_size →
        (nghttp2_should_send_window_update local_window_size recv_window_size ≠ 0 ↔
          local_window_size ≤ 2 * recv_window_size + 1)) ∧
      (local_window_size < 0 →
        (nghttp2_should_send_window_update local_window_size recv_window_size ≠ 0 ↔
          local_window_size ≤ 2 * recv_window_size))) ∧
    nghttp2_should_send_window_update 100 50 = 1 ∧
    nghttp2_should_send_window_update 100 49 = 0 := by
  refine ⟨fun l r => ⟨?_, ?_, fun h => ?_, fun h => ?_⟩, by decide, by decide⟩
  · unfold nghttp2_should_send_window_update
    split_ifs with h <;> simp [h]
  · unfold nghttp2_should_send_window_update
    split_ifs
    · left; rfl
    · right; rfl
  · unfold nghttp2_should_send_window_update
    rw [tdiv_two_nonneg l h]
    split_ifs with h1
    · constructor
      · intro _; omega
      · intro _; decide
    · constructor
      · intro h2; exact absurd rfl h2
      · intro _; omega
  · unfold nghttp2_should_send_window_update
    rw [tdiv_two_neg l h]
    split_ifs with h1
    · constructor
      · intro _; omega
      · intro _; decide
    · constructor
      · intro h2; exact absurd rfl h2
      · intro _; omega

/-! ## The growable buffer -/

theorem reserve_buffer_growth_in_range (realloc : Nat → Nat → Nat)
    (buf_ptr buflen min_length : Nat) (hgt : min_length > buflen)
    (hrange : min_length + 4095 ≤ SIZE_MAX)
    (hok : realloc buf_ptr ((min_length + 4095) / 4096 * 4096) ≠ 0) :
    (nghttp2_reserve_buffer realloc buf_ptr buflen min_length).ret = 0 ∧
    (nghttp2_reserve_buffer realloc buf_ptr buflen min_length).buflen % 4096 = 0 ∧
    min_length ≤ (nghttp2_reserve_buffer realloc buf_ptr buflen min_length).buflen ∧
    (∀ c : Nat, c % 4096 = 0 → min_length ≤ c →
      (nghttp2_reserve_buffer realloc buf_ptr buflen min_length).buflen ≤ c) ∧
    buflen ≤ (nghttp2_reserve_buffer realloc buf_ptr buflen min_length).buflen := by
  have h1 : (min_length + 4095) % SIZE_MOD = min_length + 4095 := by
    unfold SIZE_MOD; unfold SIZE_MAX at hrange; omega
  have h2 : (min_length + 4095) / 4096 * 4096 % SIZE_MOD = (min_length + 4095) / 4096 * 4096 := by
    unfold SIZE_MOD; unfold SIZE_MAX at hrange; omega
  have key : nghttp2_reserve_buffer realloc buf_ptr buflen min_length
      = ⟨0, realloc buf_ptr ((min_length + 4095) / 4096 * 4096),
          (min_length + 4095) / 4096 * 4096,
          [(buf_ptr, (min_length + 4095) / 4096 * 4096)]⟩ := by
    unfold nghttp2_reserve_buffer
    rw [if_pos hgt]
    simp only [h1, h2]
    rw [if_neg hok]
  rw [key]
  dsimp only
  refine ⟨rfl, ?_, ?_, ?_, ?_⟩
  · omega
  · omega
  · intro c hc hle
    omega
  · omega

/-- Claim C11, at the input where the code departs from it: with a 64-bit
`size_t`, an empty buffer (`NULL`, capacity 0) and `min_length = SIZE_MAX`,
the sum `min_length + 4095` wraps to 4094, the rounded size is 0, and when
`realloc(NULL, 0)` returns a pointer the call returns 0 with capacity 0, which
is less than `min_length`.  On the two inputs the claim names, capacity 0 with
`min_length` 1 and capacity 4096 with `min_length` 4097, the new capacity is
4096 and 8192. -/
theorem reserve_buffer_growth_wraps :
    SIZE_MAX > 0 ∧
    (nghttp2_reserve_buffer (fun _ _ => 1) 0 0 SIZE_MAX).realloc_calls = [(0, 0)] ∧
    (nghttp2_reserve_buffer (fun _ _ => 1) 0 0 SIZE_MAX).ret = 0 ∧
    (nghttp2_reserve_buffer (fun _ _ => 1) 0 0 SIZE_MAX).buflen = 0 ∧
    ¬ (SIZE_MAX ≤ (nghttp2_reserve_buffer (fun _ _ => 1) 0 0 SIZE_MAX).buflen) ∧
    (nghttp2_reserve_buffer (fun _ _ => 1) 1 8192 (SIZE_MAX - 100)).buflen = 0 ∧
    (nghttp2_reserve_buffer (fun _ _ => 1) 0 0 1).buflen = 4096 ∧
    (nghttp2_reserve_buffer (fun _ _ => 1) 1 4096 4097).buflen = 8192 := by
  decide

/-- Claim C12: for every buffer pointer, capacity and `min_length > capacity`,
when the reallocation that `nghttp2_reserve_buffer` asks for fails (`realloc`
returns `NULL`), the call returns `NGHTTP2_ERR_NOMEM` and leaves the buffer
pointer and the capacity as they were. -/
theorem reserve_buffer_failure_atomic (realloc : Nat → Nat → Nat)
    (buf_ptr buflen min_length : Nat) (hgt : min_length > buflen)
    (hfail : ∀ c ∈ (nghttp2_reserve_buffer realloc buf_ptr buflen min_length).realloc_calls,
      realloc c.1 c.2 = 0) :
    (nghttp2_reserve_buffer realloc buf_ptr buflen min_length).ret = NGHTTP2_ERR_NOMEM ∧
    (nghttp2_reserve_buffer realloc buf_ptr buflen min_length).buf_ptr = buf_ptr ∧
    (nghttp2_reserve_buffer realloc buf_ptr buflen min_length).buflen = buflen := by
  unfold nghttp2_reserve_buffer at hfail ⊢
  simp only [hgt, if_true] at hfail ⊢
  split_ifs at hfail ⊢ with h
  · exact ⟨rfl, rfl, rfl⟩
  · exact absurd (hfail _ (List.mem_singleton.2 rfl)) h

/-- A buffer at address 7 with capacity 10, a request for 18 bytes and an
allocator that always fails. -/
theorem reserve_buffer_failure_atomic_witness :
    (18 : Nat) > 10 ∧
    (∀ c ∈ (nghttp2_reserve_buffer (fun _ _ => 0) 7 10 18).realloc_calls,
      (fun _ _ => 0 : Nat → Nat → Nat) c.1 c.2 = 0) ∧
    ((nghttp2_reserve_buffer (fun _ _ => 0) 7 10 18).ret = NGHTTP2_ERR_NOMEM ∧
      (nghttp2_reserve_buffer (fun _ _ => 0) 7 10 18).buf_ptr = 7 ∧
      (nghttp2_reserve_buffer (fun _ _ => 0) 7 10 18).buflen = 10) :=
  ⟨by decide, fun _ _ => rfl,
    reserve_buffer_failure_atomic (fun _ _ => 0) 7 10 18 (by decide) (fun _ _ => rfl)⟩

/-- Claim C13: for every buffer pointer, capacity and `min_length ≤ capacity`
(equal to the capacity or 0 included), `nghttp2_reserve_buffer` returns 0,
calls the allocator not at all, and leaves the buffer pointer and the capacity
as they were. -/
theorem reserve_buffer_noop (realloc : Nat → Nat → Nat)
    (buf_ptr buflen min_length : Nat) (hle : min_length ≤ buflen) :
    (nghttp2_reserve_buffer realloc buf_ptr buflen min_length).ret = 0 ∧
    (nghttp2_reserve_buffer realloc buf_ptr buflen min_length).realloc_calls = [] ∧
    (nghttp2_reserve_buffer realloc buf_ptr buflen min_length).buf_ptr = buf_ptr ∧
    (nghttp2_reserve_buffer realloc buf_ptr buflen min_length).buflen = buflen := by
  unfold nghttp2_reserve_buffer
  rw [if_neg (by omega)]
  exact ⟨rfl, rfl, rfl, rfl⟩

/-- A buffer at address 7 with capacity 4096 and a request for exactly 4096
bytes. -/
theorem reserve_buffer_noop_witness :
    (4096 : Nat) ≤ 4096 ∧
    ((nghttp2_reserve_buffer (fun _ _ => 1) 7 4096 4096).ret = 0 ∧
      (nghttp2_reserve_buffer (fun _ _ => 1) 7 4096 4096).realloc_calls = [] ∧
      (nghttp2_reserve_buffer (fun _ _ => 1) 7 4096 4096).buf_ptr = 7 ∧
      (nghttp2_reserve_buffer (fun _ _ => 1) 7 4096 4096).buflen = 4096) :=
  ⟨by decide, reserve_buffer_noop (fun _ _ => 1) 7 4096 4096 (by decide)⟩

/-! ## The byte codec: helper facts -/

theorem toByte_val (x : Nat) : (toByte x).val = x % 256 := rfl

theorem toByte_of_val (b0 : Byte) (x : Nat) (h : x % 256 = b0.val) : toByte x = b0 :=
  Fin.ext h

theorem digits2 (h l : Nat) (hh : h < 256) (hl : l < 256) :
    (h * 256 + l) % 256 = l ∧ (h * 256 + l) / 256 = h ∧ (h * 256 + l) / 256 % 256 = h ∧
      h * 256 + l < 65536 := by
  omega

theorem digits4 (a b c d : Nat) (ha : a < 256) (hb : b < 256) (hc : c < 256) (hd : d < 256) :
    (a * 16777216 + b * 65536 + c * 256 + d) % 256 = d ∧
    (a * 16777216 + b * 65536 + c * 256 + d) / 256 % 256 = c ∧
    (a * 16777216 + b * 65536 + c * 256 + d) / 65536 % 256 = b ∧
    (a * 16777216 + b * 65536 + c * 256 + d) / 16777216 % 256 = a ∧
    (a * 16777216 + b * 65536 + c * 256 + d) / 16777216 = a ∧
    a * 16777216 + b * 65536 + c * 256 + d < 4294967296 := by
  omega

theorem split2 (n : Nat) (hn : n < 65536) :
    n = (n / 256 % 256) * 256 + n % 256 ∧ n / 256 % 256 = n / 256 := by
  omega

theorem split4 (n : Nat) (hn : n < 4294967296) :
    n = (n / 16777216 % 256) * 16777216 + (n / 65536 % 256) * 65536 + (n / 256 % 256) * 256
      + n % 256 ∧ n / 16777216 % 256 = n / 16777216 := by
  omega

theorem htons_lt (le : Bool) (n : Nat) (hn : n < 65536) : htons le n < 65536 := by
  cases le
  · simpa [htons] using hn
  · simp only [htons, if_true]
    exact (digits2 (n % 256) (n / 256 % 256) (Nat.mod_lt _ (by decide))
      (Nat.mod_lt _ (by decide))).2.2.2

theorem ntohs_lt (le : Bool) (n : Nat) (hn : n < 65536) : ntohs le n < 65536 :=
  htons_lt le n hn

theorem ntohs_htons (le : Bool) (n : Nat) (hn : n < 65536) : ntohs le (htons le n) = n := by
  cases le
  · simp [htons, ntohs]
  · simp only [htons, ntohs, if_true]
    obtain ⟨h1, h2, h3, -⟩ := digits2 (n % 256) (n / 256 % 256) (Nat.mod_lt _ (by decide))
      (Nat.mod_lt _ (by decide))
    rw [h1, h3]
    exact (split2 n hn).1.symm

theorem htons_ntohs (le : Bool) (n : Nat) (hn : n < 65536) : htons le (ntohs le n) = n :=
  ntohs_htons le n hn

theorem htonl_lt (le : Bool) (n : Nat) (hn : n < 4294967296) : htonl le n < 4294967296 := by
  cases le
  · simpa [htonl] using hn
  · simp only [htonl, if_true]
    exact (digits4 (n % 256) (n / 256 % 256) (n / 65536 % 256) (n / 16777216 % 256)
      (Nat.mod_lt _ (by decide)) (Nat.mod_lt _ (by decide)) (Nat.mod_lt _ (by decide))
      (Nat.mod_lt _ (by decide))).2.2.2.2.2

theorem ntohl_htonl (le : Bool) (n : Nat) (hn : n < 4294967296) :
    ntohl le (htonl le n) = n := by
  cases le
  · simp [htonl, ntohl]
  · simp only [htonl, ntohl, if_true]
    obtain ⟨h1, h2, h3, h4, -, -⟩ :=
      digits4 (n % 256) (n / 256 % 256) (n / 65536 % 256) (n / 16777216 % 256)
        (Nat.mod_lt _ (by decide)) (Nat.mod_lt _ (by decide)) (Nat.mod_lt _ (by decide))
        (Nat.mod_lt _ (by decide))
    rw [h1, h2, h3, h4]
    exact (split4 n hn).1.symm

theorem htonl_ntohl (le : Bool) (n : Nat) (hn : n < 4294967296) :
    htonl le (ntohl le n) = n :=
  ntohl_htonl le n hn

theorem bytes_of_uint16_htons (le : Bool) (n : Nat) :
    bytes_of_uint16 le (htons le n) = [toByte (n / 256), toByte n] := by
  cases le
  · simp [bytes_of_uint16, htons]
  · simp only [bytes_of_uint16, htons, if_true]
    obtain ⟨h1, h2, h3, -⟩ := digits2 (n % 256) (n / 256 % 256) (Nat.mod_lt _ (by decide))
      (Nat.mod_lt _ (by decide))
    have e1 : toByte (n % 256 * 256 + n / 256 % 256) = toByte (n / 256) := by
      apply Fin.ext
      simp only [toByte_val, h1, Nat.mod_mod]
    have e2 : toByte ((n % 256 * 256 + n / 256 % 256) / 256) = toByte n := by
      apply Fin.ext
      simp only [toByte_val, h2, Nat.mod_mod]
    rw [e1, e2]

theorem bytes_of_uint32_htonl (le : Bool) (n : Nat) :
    bytes_of_uint32 le (htonl le n)
      = [toByte (n / 16777216), toByte (n / 65536), toByte (n / 256), toByte n] := by
  cases le
  · simp [bytes_of_uint32, htonl]
  · simp only [bytes_of_uint32, htonl, if_true]
    obtain ⟨h1, h2, h3, h4, -, -⟩ :=
      digits4 (n % 256) (n / 256 % 256) (n / 65536 % 256) (n / 16777216 % 256)
        (Nat.mod_lt _ (by decide)) (Nat.mod_lt _ (by decide)) (Nat.mod_lt _ (by decide))
        (Nat.mod_lt _ (by decide))
    have e1 : toByte (n % 256 * 16777216 + n / 256 % 256 * 65536 + n / 65536 % 256 * 256
        + n / 16777216 % 256) = toByte (n / 16777216) := by
      apply Fin.ext
      simp only [toByte_val, h1, Nat.mod_mod]
    have e2 : toByte ((n % 256 * 16777216 + n / 256 % 256 * 65536 + n / 65536 % 256 * 256
        + n / 16777216 % 256) / 256) = toByte (n / 65536) := by
      apply Fin.ext
      simp only [toByte_val, h2, Nat.mod_mod]
    have e3 : toByte ((n % 256 * 16777216 + n / 256 % 256 * 65536 + n / 65536 % 256 * 256
        + n / 16777216 % 256) / 65536) = toByte (n / 256) := by
      apply Fin.ext
      simp only [toByte_val, h3, Nat.mod_mod]
    have e4 : toByte ((n % 256 * 16777216 + n / 256 % 256 * 65536 + n / 65536 % 256 * 256
        + n / 16777216 % 256) / 16777216) = toByte n := by
      apply Fin.ext
      simp only [toByte_val, h4, Nat.mod_mod]
    rw [e1, e2, e3, e4]

theorem load_store16 (le : Bool) (x : Nat) (hx : x < 65536) :
    uint16_of_bytes le (bytes_of_uint16 le x) = x := by
  cases le
  · simp only [uint16_of_bytes, bytes_of_uint16, Bool.false_eq_true, if_false,
      List.getD_cons_zero, List.getD_cons_succ, toByte_val]
    omega
  · simp only [uint16_of_bytes, bytes_of_uint16, if_true,
      List.getD_cons_zero, List.getD_cons_succ, toByte_val]
    omega

theorem load_store32 (le : Bool) (x : Nat) (hx : x < 4294967296) :
    uint32_of_bytes le (bytes_of_uint32 le x) = x := by
  cases le
  · simp only [uint32_of_bytes, bytes_of_uint32, Bool.false_eq_true, if_false,
      List.getD_cons_zero, List.getD_cons_succ, toByte_val]
    omega
  · simp only [uint32_of_bytes, bytes_of_uint32, if_true,
      List.getD_cons_zero, List.getD_cons_succ, toByte_val]
    omega

theorem uint16_of_bytes_lt (le : Bool) (b0 b1 : Byte) :
    uint16_of_bytes le [b0, b1] < 65536 := by
  have h0 := b0.isLt
  have h1 := b1.isLt
  cases le
  · simp only [uint16_of_bytes, Bool.false_eq_true, if_false,
      List.getD_cons_zero, List.getD_cons_succ]
    omega
  · simp only [uint16_of_bytes, if_true, List.getD_cons_zero, List.getD_cons_succ]
    omega

theorem uint32_of_bytes_lt (le : Bool) (b0 b1 b2 b3 : Byte) :
    uint32_of_bytes le [b0, b1, b2, b3] < 4294967296 := by
  have h0 := b0.isLt
  have h1 := b1.isLt
  have h2 := b2.isLt
  have h3 := b3.isLt
  cases le
  · simp only [uint32_of_bytes, Bool.false_eq_true, if_false,
      List.getD_cons_zero, List.getD_cons_succ]
    omega
  · simp only [uint32_of_bytes, if_true, List.getD_cons_zero, List.getD_cons_succ]
    omega

theorem store_load16 (le : Bool) (b0 b1 : Byte) :
    bytes_of_uint16 le (uint16_of_bytes le [b0, b1]) = [b0, b1] := by
  have h0 := b0.isLt
  have h1 := b1.isLt
  cases le
  · simp only [uint16_of_bytes, bytes_of_uint16, Bool.false_eq_true, if_false,
      List.getD_cons_zero, List.getD_cons_succ]
    rw [toByte_of_val b0 _ (by omega), toByte_of_val b1 _ (by omega)]
  · simp only [uint16_of_bytes, bytes_of_uint16, if_true,
      List.getD_cons_zero, List.getD_cons_succ]
    rw [toByte_of_val b0 _ (by omega), toByte_of_val b1 _ (by omega)]

theorem store_load32 (le : Bool) (b0 b1 b2 b3 : Byte) :
    bytes_of_uint32 le (uint32_of_bytes le [b0, b1, b2, b3]) = [b0, b1, b2, b3] := by
  have h0 := b0.isLt
  have h1 := b1.isLt
  have h2 := b2.isLt
  have h3 := b3.isLt
  cases le
  · simp only [uint32_of_bytes, bytes_of_uint32, Bool.false_eq_true, if_false,
      List.getD_cons_zero, List.getD_cons_succ]
    rw [toByte_of_val b0 _ (by omega), toByte_of_val b1 _ (by omega),
      toByte_of_val b2 _ (by omega), toByte_of_val b3 _ (by omega)]
  · simp only [uint32_of_bytes, bytes_of_uint32, if_true,
      List.getD_cons_zero, List.getD_cons_succ]
    rw [toByte_of_val b0 _ (by omega), toByte_of_val b1 _ (by omega),
      toByte_of_val b2 _ (by omega), toByte_of_val b3 _ (by omega)]

theorem bytes_of_uint16_length (le : Bool) (x : Nat) : (bytes_of_uint16 le x).length = 2 := by
  cases le <;> rfl

theorem bytes_of_uint32_length (le : Bool) (x : Nat) : (bytes_of_uint32 le x).length = 4 := by
  cases le <;> rfl

theorem memcpy_exact (dst src : List Byte) (n : Nat) (hs : src.length = n)
    (hd : dst.length = n) : memcpy dst src n = src := by
  unfold memcpy
  rw [List.take_of_length_le (by omega), List.drop_of_length_le (by omega), List.append_nil]

theorem take_memcpy (dst src : List Byte) (n : Nat) (hs : src.length = n) :
    (memcpy dst src n).take n = src := by
  unfold memcpy
  rw [List.take_of_length_le (le_of_eq hs), List.take_append_of_le_length (le_of_eq hs.symm),
    List.take_of_length_le (le_of_eq hs)]

theorem drop_memcpy (dst src : List Byte) (n : Nat) (hs : src.length = n) :
    (memcpy dst src n).drop n = dst.drop n := by
  unfold memcpy
  rw [List.take_of_length_le (le_of_eq hs), List.drop_append_of_le_length (le_of_eq hs.symm),
    List.drop_of_length_le (le_of_eq hs), List.nil_append]

theorem length_memcpy (dst src : List Byte) (n : Nat) (hs : src.length = n)
    (hd : n ≤ dst.length) : (memcpy dst src n).length = dst.length := by
  unfold memcpy
  rw [List.length_append, List.take_of_length_le (le_of_eq hs), List.length_drop]
  omega

/-! ## The byte codec -/

/-- Claim C14: for every 16-bit `n`, `nghttp2_put_uint16be` leaves the two
bytes `n / 256`, `n mod 256` at `buf[0..1]`, and for every 32-bit `n`,
`nghttp2_put_uint32be` leaves the four bytes `n / 2^24`, `(n / 2^16) mod 256`,
`(n / 2^8) mod 256`, `n mod 256` at `buf[0..3]`; the bytes of the buffer after
those 2 (4) are the ones it held before and its length is the same.  This
holds on a little-endian and on a big-endian host, for every buffer of at least
2 (4) bytes. -/
theorem put_uintbe_layout (le : Bool) (buf : List Byte) (n : Nat) :
    (n < 65536 → 2 ≤ buf.length →
      ((nghttp2_put_uint16be le buf n).take 2).map Fin.val = [n / 256, n % 256] ∧
      (nghttp2_put_uint16be le buf n).drop 2 = buf.drop 2 ∧
      (nghttp2_put_uint16be le buf n).length = buf.length) ∧
    (n < 4294967296 → 4 ≤ buf.length →
      ((nghttp2_put_uint32be le buf n).take 4).map Fin.val
        = [n / 16777216, (n / 65536) % 256, (n / 256) % 256, n % 256] ∧
      (nghttp2_put_uint32be le buf n).drop 4 = buf.drop 4 ∧
      (nghttp2_put_uint32be le buf n).length = buf.length) := by
  constructor
  · intro hn hlen
    unfold nghttp2_put_uint16be
    refine ⟨?_, drop_memcpy _ _ 2 (bytes_of_uint16_length _ _),
      length_memcpy _ _ 2 (bytes_of_uint16_length _ _) hlen⟩
    rw [take_memcpy _ _ 2 (bytes_of_uint16_length _ _), bytes_of_uint16_htons]
    simp only [List.map_cons, List.map_nil, toByte_val]
    rw [Nat.mod_eq_of_lt (show n / 256 < 256 by omega)]
  · intro hn hlen
    unfold nghttp2_put_uint32be
    refine ⟨?_, drop_memcpy _ _ 4 (bytes_of_uint32_length _ _),
      length_memcpy _ _ 4 (bytes_of_uint32_length _ _) hlen⟩
    rw [take_memcpy _ _ 4 (bytes_of_uint32_length _ _), bytes_of_uint32_htonl]
    simp only [List.map_cons, List.map_nil, toByte_val]
    rw [Nat.mod_eq_of_lt (show n / 16777216 < 256 by omega)]

/-- The value 0x1234 written by both functions into a buffer of five bytes 9
on a little-endian host. -/
theorem put_uintbe_layout_witness :
    ((0x1234 : Nat) < 65536 ∧ 2 ≤ ([9, 9, 9, 9, 9] : List Byte).length ∧
      nghttp2_put_uint16be true [9, 9, 9, 9, 9] 0x1234 = [0x12, 0x34, 9, 9, 9] ∧
      nghttp2_put_uint32be true [9, 9, 9, 9, 9] 0x1234 = [0, 0, 0x12, 0x34, 9]) ∧
    ((0x1234 < 65536 → 2 ≤ ([9, 9, 9, 9, 9] : List Byte).length →
        ((nghttp2_put_uint16be true [9, 9, 9, 9, 9] 0x1234).take 2).map Fin.val
          = [0x1234 / 256, 0x1234 % 256] ∧
        (nghttp2_put_uint16be true [9, 9, 9, 9, 9] 0x1234).drop 2
          = ([9, 9, 9, 9, 9] : List Byte).drop 2 ∧
        (nghttp2_put_uint16be true [9, 9, 9, 9, 9] 0x1234).length
          = ([9, 9, 9, 9, 9] : List Byte).length) ∧
      (0x1234 < 4294967296 → 4 ≤ ([9, 9, 9, 9, 9] : List Byte).length →
        ((nghttp2_put_uint32be true [9, 9, 9, 9, 9] 0x1234).take 4).map Fin.val
          = [0x1234 / 16777216, (0x1234 / 65536) % 256, (0x1234 / 256) % 256, 0x1234 % 256] ∧
        (nghttp2_put_uint32be true [9, 9, 9, 9, 9] 0x1234).drop 4
          = ([9, 9, 9, 9, 9] : List Byte).drop 4 ∧
        (nghttp2_put_uint32be true [9, 9, 9, 9, 9] 0x1234).length
          = ([9, 9, 9, 9, 9] : List Byte).length)) :=
  ⟨⟨by decide, by decide, by decide, by decide⟩,
    put_uintbe_layout true [9, 9, 9, 9, 9] 0x1234⟩

/-- Claim C15: for every 16-bit `n`, `nghttp2_get_uint16` applied to the buffer
that `nghttp2_put_uint16be` wrote `n` into returns `n`, and for every 32-bit
`n`, `nghttp2_get_uint32` applied to the buffer that `nghttp2_put_uint32be`
wrote `n` into returns `n`; conversely, for every sequence `b` of 2 (4) bytes,
putting the value read from `b` writes exactly the bytes of `b`, into `b`
itself and at the start of any other buffer.  This holds on a little-endian
and on a big-endian host. -/
theorem codec_round_trip (le : Bool) (buf b : List Byte) (n : Nat) :
    (n < 65536 → nghttp2_get_uint16 le (nghttp2_put_uint16be le buf n) = n) ∧
    (n < 4294967296 → nghttp2_get_uint32 le (nghttp2_put_uint32be le buf n) = n) ∧
    (b.length = 2 →
      nghttp2_put_uint16be le b (nghttp2_get_uint16 le b) = b ∧
      (nghttp2_put_uint16be le buf (nghttp2_get_uint16 le b)).take 2 = b) ∧
    (b.length = 4 →
      nghttp2_put_uint32be le b (nghttp2_get_uint32 le b) = b ∧
      (nghttp2_put_uint32be le buf (nghttp2_get_uint32 le b)).take 4 = b) := by
  refine ⟨fun hn => ?_, fun hn => ?_, fun hb => ?_, fun hb => ?_⟩
  · unfold nghttp2_get_uint16 nghttp2_put_uint16be
    have h1 : memcpy [0, 0] (memcpy buf (bytes_of_uint16 le (htons le n)) 2) 2
        = bytes_of_uint16 le (htons le n) := by
      have := take_memcpy buf (bytes_of_uint16 le (htons le n)) 2 (bytes_of_uint16_length _ _)
      simp only [memcpy, List.drop_succ_cons, List.drop_zero, List.append_nil] at this ⊢
      exact this
    simp only [h1]
    rw [load_store16 le _ (htons_lt le n hn), ntohs_htons le n hn]
  · unfold nghttp2_get_uint32 nghttp2_put_uint32be
    have h1 : memcpy [0, 0, 0, 0] (memcpy buf (bytes_of_uint32 le (htonl le n)) 4) 4
        = bytes_of_uint32 le (htonl le n) := by
      have := take_memcpy buf (bytes_of_uint32 le (htonl le n)) 4 (bytes_of_uint32_length _ _)
      simp only [memcpy, List.drop_succ_cons, List.drop_zero, List.append_nil] at this ⊢
      exact this
    simp only [h1]
    rw [load_store32 le _ (htonl_lt le n hn), ntohl_htonl le n hn]
  · obtain ⟨b0, b1, rfl⟩ := List.length_eq_two.1 hb
    have hget : nghttp2_get_uint16 le [b0, b1] = ntohs le (uint16_of_bytes le [b0, b1]) := by
      simp [nghttp2_get_uint16, memcpy]
    have hsrc : bytes_of_uint16 le (htons le (nghttp2_get_uint16 le [b0, b1])) = [b0, b1] := by
      rw [hget, htons_ntohs le _ (uint16_of_bytes_lt le b0 b1), store_load16]
    unfold nghttp2_put_uint16be
    simp only [hsrc]
    exact ⟨memcpy_exact _ _ 2 rfl rfl, take_memcpy _ _ 2 rfl⟩
  · obtain ⟨b0, b1, b2, b3, rfl⟩ : ∃ b0 b1 b2 b3, b = [b0, b1, b2, b3] := by
      match b, hb with
      | [b0, b1, b2, b3], _ => exact ⟨b0, b1, b2, b3, rfl⟩
    have hget : nghttp2_get_uint32 le [b0, b1, b2, b3]
        = ntohl le (uint32_of_bytes le [b0, b1, b2, b3]) := by
      simp [nghttp2_get_uint32, memcpy]
    have hsrc : bytes_of_uint32 le (htonl le (nghttp2_get_uint32 le [b0, b1, b2, b3]))
        = [b0, b1, b2, b3] := by
      rw [hget, htonl_ntohl le _ (uint32_of_bytes_lt le b0 b1 b2 b3), store_load32]
    unfold nghttp2_put_uint32be
    simp only [hsrc]
    exact ⟨memcpy_exact _ _ 4 rfl rfl, take_memcpy _ _ 4 rfl⟩

/-- The value 0xBEEF and the bytes 0x12 0x34 0x56 0x78 on a little-endian
host. -/
theorem codec_round_trip_witness :
    ((0xBEEF : Nat) < 65536 ∧ ([0x12, 0x34, 0x56, 0x78] : List Byte).length = 4 ∧
      nghttp2_get_uint32 true [0x12, 0x34, 0x56, 0x78] = 0x12345678) ∧
    ((0xBEEF < 65536 →
        nghttp2_get_uint16 true (nghttp2_put_uint16be true [9, 9, 9, 9, 9] 0xBEEF) = 0xBEEF) ∧
      (0xBEEF < 4294967296 →
        nghttp2_get_uint32 true (nghttp2_put_uint32be true [9, 9, 9, 9, 9] 0xBEEF) = 0xBEEF) ∧
      (([0x12, 0x34, 0x56, 0x78] : List Byte).length = 2 →
        nghttp2_put_uint16be true [0x12, 0x34, 0x56, 0x78]
            (nghttp2_get_uint16 true [0x12, 0x34, 0x56, 0x78]) = [0x12, 0x34, 0x56, 0x78] ∧
        (nghttp2_put_uint16be true [9, 9, 9, 9, 9]
            (nghttp2_get_uint16 true [0x12, 0x34, 0x56, 0x78])).take 2
          = [0x12, 0x34, 0x56, 0x78]) ∧
      (([0x12, 0x34, 0x56, 0x78] : List Byte).length = 4 →
        nghttp2_put_uint32be true [0x12, 0x34, 0x56, 0x78]
            (nghttp2_get_uint32 true [0x12, 0x34, 0x56, 0x78]) = [0x12, 0x34, 0x56, 0x78] ∧
        (nghttp2_put_uint32be true [9, 9, 9, 9, 9]
            (nghttp2_get_uint32 true [0x12, 0x34, 0x56, 0x78])).take 4
          = [0x12, 0x34, 0x56, 0x78])) :=
  ⟨⟨by decide, by decide, by decide⟩,
    codec_round_trip true [9, 9, 9, 9, 9] [0x12, 0x34, 0x56, 0x78] 0xBEEF⟩

/-! ## Case folding -/

theorem downcase_eq_map (s : List Byte) :
    nghttp2_downcase s
      = s.map (fun c => if 65 ≤ c.val ∧ c.val ≤ 90 then toByte (c.val + (97 - 65)) else c) := by
  induction s with
  | nil => rfl
  | cons c rest ih =>
    unfold nghttp2_downcase
    rw [ih]
    rfl

theorem downcase_byte_not_upper (c : Byte) :
    ¬ (65 ≤ (if 65 ≤ c.val ∧ c.val ≤ 90 then toByte (c.val + (97 - 65)) else c).val ∧
      (if 65 ≤ c.val ∧ c.val ≤ 90 then toByte (c.val + (97 - 65)) else c).val ≤ 90) := by
  have hc := c.isLt
  split_ifs with h
  · simp only [toByte_val]
    omega
  · exact h

/-- Claim C16: for every byte array `s`, `nghttp2_downcase` leaves the length
unchanged, replaces every byte in `A`..`Z` (0x41..0x5A) by that byte plus 0x20
and leaves every other byte, those from 0x80 on included, as it is; the result
holds no byte in `A`..`Z`, and applying `nghttp2_downcase` twice gives what
applying it once gives. -/
theorem downcase_spec (s : List Byte) :
    (nghttp2_downcase s).length = s.length ∧
    (∀ (i : Nat) (c : Byte), s[i]? = some c → 0x41 ≤ c.val ∧ c.val ≤ 0x5A →
      ∃ d : Byte, (nghttp2_downcase s)[i]? = some d ∧ d.val = c.val + 0x20) ∧
    (∀ (i : Nat) (c : Byte), s[i]? = some c → ¬ (0x41 ≤ c.val ∧ c.val ≤ 0x5A) →
      (nghttp2_downcase s)[i]? = some c) ∧
    (∀ c ∈ nghttp2_downcase s, ¬ (0x41 ≤ c.val ∧ c.val ≤ 0x5A)) ∧
    nghttp2_downcase (nghttp2_downcase s) = nghttp2_downcase s := by
  refine ⟨?_, ?_, ?_, ?_, ?_⟩
  · rw [downcase_eq_map, List.length_map]
  · intro i c hi hc
    refine ⟨toByte (c.val + (97 - 65)), ?_, ?_⟩
    · rw [downcase_eq_map, List.getElem?_map, hi]
      simp only [Option.map_some', if_pos hc]
    · simp only [toByte_val]
      omega
  · intro i c hi hc
    rw [downcase_eq_map, List.getElem?_map, hi]
    simp only [Option.map_some', if_neg hc]
  · intro c hc
    rw [downcase_eq_map, List.mem_map] at hc
    obtain ⟨a, -, rfl⟩ := hc
    exact downcase_byte_not_upper a
  · rw [downcase_eq_map (nghttp2_downcase s), downcase_eq_map s, List.map_map]
    apply List.map_congr_left
    intro a _
    simp only [Function.comp]
    rw [if_neg (downcase_byte_not_upper a)]

/-! ## Case folding and the name check -/

set_option maxRecDepth 100000 in
theorem table_entry_downcased (c : Byte) (h : 65 ≤ c.val ∧ c.val ≤ 90) :
    VALID_HD_NAME_CHARS.getD (toByte (c.val + (97 - 65))).val 0 ≠ -1 := by
  revert c
  decide

theorem check_header_name_loop_downcase (l : List Byte) :
    check_header_name_loop 1 l = check_header_name_loop 0 (nghttp2_downcase l) := by
  induction l with
  | nil => rfl
  | cons c rest ih =>
    unfold nghttp2_downcase
    by_cases hc : 65 ≤ c.val ∧ c.val ≤ 90
    · rw [if_pos hc]
      unfold check_header_name_loop
      rw [if_pos ⟨by decide, hc.1, hc.2⟩, if_neg (fun h => h.1 rfl),
        if_neg (table_entry_downcased c hc)]
      exact ih
    · rw [if_neg hc]
      unfold check_header_name_loop
      rw [if_neg (show ¬ ((1 : Int) ≠ 0 ∧ 65 ≤ c.val ∧ c.val ≤ 90) from fun h => hc ⟨h.2.1, h.2.2⟩),
        if_neg (show ¬ ((0 : Int) ≠ 0 ∧ 65 ≤ c.val ∧ c.val ≤ 90) from fun h => h.1 rfl), ih]

theorem downcase_length (s : List Byte) : (nghttp2_downcase s).length = s.length := by
  rw [downcase_eq_map, List.length_map]

/-- Claim C20: for every byte string `name`,
`nghttp2_check_header_name_nocase(name)` equals `nghttp2_check_header_name`
applied to the name that `nghttp2_downcase` produces, and every name that
`nghttp2_check_header_name` accepts is accepted by
`nghttp2_check_header_name_nocase` as well. -/
theorem check_header_name_nocase_eq_downcase (name : List Byte) :
    nghttp2_check_header_name_nocase name
      = nghttp2_check_header_name (nghttp2_downcase name) ∧
    (nghttp2_check_header_name name = 1 → nghttp2_check_header_name_nocase name = 1) := by
  constructor
  · unfold nghttp2_check_header_name_nocase nghttp2_check_header_name
    cases name with
    | nil => rfl
    | cons c rest =>
      unfold nghttp2_downcase
      by_cases h58 : c.val = 58
      · have hc : ¬ (65 ≤ c.val ∧ c.val ≤ 90) := by omega
        rw [if_neg hc]
        unfold check_header_name
        simp only [h58, if_true, List.length_cons, downcase_length]
        split_ifs
        · rfl
        · exact check_header_name_loop_downcase rest
      · by_cases hc : 65 ≤ c.val ∧ c.val ≤ 90
        · rw [if_pos hc]
          have h58b : ¬ (toByte (c.val + (97 - 65))).val = 58 := by
            simp only [toByte_val]
            omega
          unfold check_header_name
          simp only [h58, h58b, if_false]
          have := check_header_name_loop_downcase (c :: rest)
          unfold nghttp2_downcase at this
          rw [if_pos hc] at this
          exact this
        · rw [if_neg hc]
          unfold check_header_name
          simp only [h58, if_false]
          have := check_header_name_loop_downcase (c :: rest)
          unfold nghttp2_downcase at this
          rw [if_neg hc] at this
          exact this
  · unfold nghttp2_check_header_name_nocase nghttp2_check_header_name
    rw [check_header_name_eq_one, check_header_name_eq_one]
    rintro ⟨h1, h2, h3⟩
    refine ⟨h1, h2, fun c hc => ?_⟩
    rcases h3 c hc with h | h
    · exact Or.inl h
    · exact absurd rfl h.1

/-! ## The ledger: what the peer sees -/

/-- Claim C17: for every ledger of `int32_t` cells with
`local_window_size ≥ 0` and `recv_reduction ≥ 0` and every delta on which
`nghttp2_adjust_local_window_size` succeeds, the difference
`local_window_size - recv_window_size` after the call equals the difference
before the call plus the rewritten delta; a shrink (delta ≤ 0) rewrites
delta to 0 and leaves the difference unchanged. -/
theorem adjust_conserves_peer_window (s : Ledger) (hwf : s.wf)
    (h0 : 0 ≤ s.local_window_size) (hr : 0 ≤ s.recv_reduction)
    (hret : (nghttp2_adjust_local_window_size s).ret = 0) :
    (nghttp2_adjust_local_window_size s).st.local_window_size
        - (nghttp2_adjust_local_window_size s).st.recv_window_size
      = (s.local_window_size - s.recv_window_size)
        + (nghttp2_adjust_local_window_size s).st.delta ∧
    (s.delta ≤ 0 →
      (nghttp2_adjust_local_window_size s).st.delta = 0 ∧
      (nghttp2_adjust_local_window_size s).st.local_window_size
          - (nghttp2_adjust_local_window_size s).st.recv_window_size
        = s.local_window_size - s.recv_window_size) := by
  obtain ⟨lws, rws, rr, d⟩ := s
  simp only [Ledger.wf, isInt32, INT32_MIN, INT32_MAX] at hwf
  simp only at h0 hr
  unfold nghttp2_adjust_local_window_size at hret ⊢
  simp only [nghttp2_max, nghttp2_min, wrap32, NGHTTP2_MAX_WINDOW_SIZE,
    NGHTTP2_ERR_FLOW_CONTROL, INT32_MIN, INT32_MAX] at hret ⊢
  split_ifs at hret ⊢ <;> dsimp only at hret ⊢ <;>
    refine ⟨?_, fun h => ⟨?_, ?_⟩⟩ <;> omega

/-- A growth by 30 on a ledger with an overdraft of 10 and a pending reduction
of 20: the difference goes from 110 to 120 and the rewritten delta is 10. -/
theorem adjust_conserves_peer_window_witness :
    (⟨100, -10, 20, 30⟩ : Ledger).wf ∧ (0 : Int) ≤ 100 ∧ (0 : Int) ≤ 20 ∧
    (nghttp2_adjust_local_window_size ⟨100, -10, 20, 30⟩).ret = 0 ∧
    (nghttp2_adjust_local_window_size ⟨100, -10, 20, 30⟩).st.delta = 10 ∧
    ((nghttp2_adjust_local_window_size ⟨100, -10, 20, 30⟩).st.local_window_size
          - (nghttp2_adjust_local_window_size ⟨100, -10, 20, 30⟩).st.recv_window_size
        = (100 - -10) + (nghttp2_adjust_local_window_size ⟨100, -10, 20, 30⟩).st.delta ∧
      ((30 : Int) ≤ 0 →
        (nghttp2_adjust_local_window_size ⟨100, -10, 20, 30⟩).st.delta = 0 ∧
        (nghttp2_adjust_local_window_size ⟨100, -10, 20, 30⟩).st.local_window_size
            - (nghttp2_adjust_local_window_size ⟨100, -10, 20, 30⟩).st.recv_window_size
          = 100 - -10)) :=
  ⟨by decide, by decide, by decide, by decide, by decide,
    adjust_conserves_peer_window ⟨100, -10, 20, 30⟩ (by decide) (by decide) (by decide)
      (by decide)⟩

/-- Claim C19: for every ledger of `int32_t` cells with `recv_reduction ≥ 0`
and every delta > 0 on which `nghttp2_adjust_local_window_size` succeeds, the
rewritten delta is at least 0, at most the requested delta, and at least
`min(delta, max(0, recv_window_size))`. -/
theorem adjust_growth_delta_bounds (s : Ledger) (hwf : s.wf) (hr : 0 ≤ s.recv_reduction)
    (hd : 0 < s.delta) (hret : (nghttp2_adjust_local_window_size s).ret = 0) :
    0 ≤ (nghttp2_adjust_local_window_size s).st.delta ∧
    (nghttp2_adjust_local_window_size s).st.delta ≤ s.delta ∧
    min s.delta (max 0 s.recv_window_size) ≤ (nghttp2_adjust_local_window_size s).st.delta := by
  obtain ⟨lws, rws, rr, d⟩ := s
  simp only [Ledger.wf, isInt32, INT32_MIN, INT32_MAX] at hwf
  simp only at hd hr
  unfold nghttp2_adjust_local_window_size at hret ⊢
  simp only [nghttp2_max, nghttp2_min, wrap32, NGHTTP2_MAX_WINDOW_SIZE,
    NGHTTP2_ERR_FLOW_CONTROL, max_def, min_def] at hret ⊢
  split_ifs at hret ⊢ <;> dsimp only at hret ⊢ <;> refine ⟨?_, ?_, ?_⟩ <;> omega

/-- A growth by 30 on the ledger (100, 12, 5): the rewritten delta is 25,
between `min(30, 12) = 12` and 30. -/
theorem adjust_growth_delta_bounds_witness :
    (⟨100, 12, 5, 30⟩ : Ledger).wf ∧ (0 : Int) ≤ 5 ∧ (0 : Int) < 30 ∧
    (nghttp2_adjust_local_window_size ⟨100, 12, 5, 30⟩).ret = 0 ∧
    (nghttp2_adjust_local_window_size ⟨100, 12, 5, 30⟩).st.delta = 25 ∧
    (0 ≤ (nghttp2_adjust_local_window_size ⟨100, 12, 5, 30⟩).st.delta ∧
      (nghttp2_adjust_local_window_size ⟨100, 12, 5, 30⟩).st.delta ≤ 30 ∧
      min 30 (max 0 12) ≤ (nghttp2_adjust_local_window_size ⟨100, 12, 5, 30⟩).st.delta) :=
  ⟨by decide, by decide, by decide, by decide, by decide,
    adjust_growth_delta_bounds ⟨100, 12, 5, 30⟩ (by decide) (by decide) (by decide)
      (by decide)⟩

/-! ## The ledger: the exact condition for the round trip -/

/-- Claim C18, refuted as stated: on the ledger (-2147483648, 0, 0), whose
`recv_reduction` is not negative, the shrink by 1 returns 0, because the sum
`local_window_size + delta` of the first guard leaves the `int32_t` range and
comes out as 2147483647; it leaves (2147483647, -1, 1), and the growth by 1
that follows returns `NGHTTP2_ERR_FLOW_CONTROL`. -/
theorem shrink_then_grow_exact_counterexample :
    (⟨-2147483648, 0, 0, -1⟩ : Ledger).wf ∧ (0 : Int) ≤ 0 ∧ (0 : Int) < 1 ∧
    (nghttp2_adjust_local_window_size ⟨-2147483648, 0, 0, -1⟩).ret = 0 ∧
    (nghttp2_adjust_local_window_size ⟨-2147483648, 0, 0, -1⟩).st = ⟨2147483647, -1, 1, 0⟩ ∧
    (nghttp2_adjust_local_window_size
      { (nghttp2_adjust_local_window_size ⟨-2147483648, 0, 0, -1⟩).st with delta := 1 }).ret
        = NGHTTP2_ERR_FLOW_CONTROL ∧
    ¬ ((nghttp2_adjust_local_window_size
      { (nghttp2_adjust_local_window_size ⟨-2147483648, 0, 0, -1⟩).st with delta := 1 }).ret
        = 0) := by
  decide

/-- Claim C18, amended: for every ledger of `int32_t` cells with
`local_window_size ≥ 0` and `recv_reduction ≥ 0` and every `k > 0` such that
`nghttp2_adjust_local_window_size` with delta `-k` succeeds, the call with
delta `k` that follows immediately succeeds as well, without overflow in any
of its `int32_t` computations; it puts `local_window_size`,
`recv_window_size` and `recv_reduction` back to their values before the
shrink and rewrites delta to 0 exactly when `recv_window_size ≤ k` held before
the shrink; and when `recv_window_size > k` held, `local_window_size` after
the second call differs from its value before the shrink. -/
theorem shrink_then_grow_exact (l r q k : Int)
    (hl : isInt32 l) (hr : isInt32 r) (hq : isInt32 q) (hk : isInt32 k)
    (hl0 : 0 ≤ l) (hq0 : 0 ≤ q) (hk0 : 0 < k)
    (hshrink : (nghttp2_adjust_local_window_size ⟨l, r, q, -k⟩).ret = 0) :
    (nghttp2_adjust_local_window_size
      { (nghttp2_adjust_local_window_size ⟨l, r, q, -k⟩).st with delta := k }).ret = 0 ∧
    (nghttp2_adjust_local_window_size
      { (nghttp2_adjust_local_window_size ⟨l, r, q, -k⟩).st with delta := k }).noOverflow ∧
    (((nghttp2_adjust_local_window_size
          { (nghttp2_adjust_local_window_size ⟨l, r, q, -k⟩).st with delta := k
            }).st.local_window_size = l ∧
        (nghttp2_adjust_local_window_size
          { (nghttp2_adjust_local_window_size ⟨l, r, q, -k⟩).st with delta := k
            }).st.recv_window_size = r ∧
        (nghttp2_adjust_local_window_size
          { (nghttp2_adjust_local_window_size ⟨l, r, q, -k⟩).st with delta := k
            }).st.recv_reduction = q ∧
        (nghttp2_adjust_local_window_size
          { (nghttp2_adjust_local_window_size ⟨l, r, q, -k⟩).st with delta := k
            }).st.delta = 0) ↔ r ≤ k) ∧
    (k < r →
      (nghttp2_adjust_local_window_size
        { (nghttp2_adjust_local_window_size ⟨l, r, q, -k⟩).st with delta := k
          }).st.local_window_size ≠ l) := by
  have hd : (⟨l, r, q, -k⟩ : Ledger).delta ≤ 0 := by simp only; omega
  have hwf : (⟨l, r, q, -k⟩ : Ledger).wf := by
    simp only [Ledger.wf, isInt32, INT32_MIN, INT32_MAX] at hl hr hq hk ⊢
    omega
  have hguard : ¬ ((⟨l, r, q, -k⟩ : Ledger).local_window_size + (⟨l, r, q, -k⟩ : Ledger).delta < 0
      ∨ (⟨l, r, q, -k⟩ : Ledger).recv_window_size + (⟨l, r, q, -k⟩ : Ledger).delta < INT32_MIN
      ∨ (⟨l, r, q, -k⟩ : Ledger).recv_reduction - (⟨l, r, q, -k⟩ : Ledger).delta > INT32_MAX) := by
    intro hg
    have := (adjust_shrink_eq ⟨l, r, q, -k⟩ hwf hl0 hd).1 hg
    rw [hshrink] at this
    simp [NGHTTP2_ERR_FLOW_CONTROL] at this
  obtain ⟨-, h1, h2, h3, h4⟩ := (adjust_shrink_eq ⟨l, r, q, -k⟩ hwf hl0 hd).2 hguard
  have hst : (nghttp2_adjust_local_window_size ⟨l, r, q, -k⟩).st = ⟨l + -k, r + -k, q - -k, 0⟩ := by
    cases hs : (nghttp2_adjust_local_window_size ⟨l, r, q, -k⟩).st
    rw [hs] at h1 h2 h3 h4
    simp only at h1 h2 h3 h4
    rw [h1, h2, h3, h4]
  rw [hst]
  simp only [INT32_MIN, INT32_MAX, isInt32, not_or, not_lt] at hl hr hq hk hguard
  unfold nghttp2_adjust_local_window_size
  simp only [Outcome.noOverflow, nghttp2_max, nghttp2_min, wrap32, NGHTTP2_MAX_WINDOW_SIZE,
    NGHTTP2_ERR_FLOW_CONTROL, isInt32, INT32_MIN, INT32_MAX]
  split_ifs <;>
    simp only [List.mem_cons, List.mem_singleton, List.not_mem_nil, or_false, forall_eq_or_imp,
      forall_eq] <;>
    refine ⟨?_, ?_, ⟨fun h => ?_, fun h => ⟨?_, ?_, ?_, ?_⟩⟩, fun h => ?_⟩ <;>
    first | exact True.intro | omega

/-- The ledger (100, 7, 3) shrunk by 10 and grown by 10 again: all three cells
are back and the rewritten delta is 0. -/
theorem shrink_then_grow_exact_witness :
    isInt32 100 ∧ isInt32 7 ∧ isInt32 3 ∧ isInt32 10 ∧ (0 : Int) ≤ 100 ∧ (0 : Int) ≤ 3 ∧
    (0 : Int) < 10 ∧
    (nghttp2_adjust_local_window_size ⟨100, 7, 3, -10⟩).ret = 0 ∧
    (nghttp2_adjust_local_window_size
      { (nghttp2_adjust_local_window_size ⟨100, 7, 3, -10⟩).st with delta := 10 }).st
        = ⟨100, 7, 3, 0⟩ ∧
    ((nghttp2_adjust_local_window_size
        { (nghttp2_adjust_local_window_size ⟨100, 7, 3, -10⟩).st with delta := 10 }).ret = 0 ∧
      (nghttp2_adjust_local_window_size
        { (nghttp2_adjust_local_window_size ⟨100, 7, 3, -10⟩).st with delta := 10
          }).noOverflow ∧
      (((nghttp2_adjust_local_window_size
            { (nghttp2_adjust_local_window_size ⟨100, 7, 3, -10⟩).st with delta := 10
              }).st.local_window_size = 100 ∧
          (nghttp2_adjust_local_window_size
            { (nghttp2_adjust_local_window_size ⟨100, 7, 3, -10⟩).st with delta := 10
              }).st.recv_window_size = 7 ∧
          (nghttp2_adjust_local_window_size
            { (nghttp2_adjust_local_window_size ⟨100, 7, 3, -10⟩).st with delta := 10
              }).st.recv_reduction = 3 ∧
          (nghttp2_adjust_local_window_size
            { (nghttp2_adjust_local_window_size ⟨100, 7, 3, -10⟩).st with delta := 10
              }).st.delta = 0) ↔ (7 : Int) ≤ 10) ∧
      ((10 : Int) < 7 →
        (nghttp2_adjust_local_window_size
          { (nghttp2_adjust_local_window_size ⟨100, 7, 3, -10⟩).st with delta := 10
            }).st.local_window_size ≠ 100)) :=
  ⟨by decide, by decide, by decide, by decide, by decide, by decide, by decide, by decide,
    by decide,
    shrink_then_grow_exact 100 7 3 10 (by decide) (by decide) (by decide) (by decide)
      (by decide) (by decide) (by decide) (by decide)⟩

end Nghttp2
